import Mathlib

/-!
Shallow embedding of the 4-tier quantitative stock scoring engine
(scoring_engine_4tier.py) over the rationals, together with theorems that
check the natural-language specification's claims against it.

Python floats are modelled as rationals; `dict.get(key, default)` lookups are
modelled by `Option` fields read with `Option.getD`; the nested boolean
"bonus/penalty" dictionaries are modelled by structures of `Bool` fields whose
default is `false` (matching `.get(flag, False)`); Python `round(x, 2)` and
`round(x * 2) / 2` are modelled with `round` on `ℚ`.  Computations that can
raise in Python (division by zero, missing dict key) return `Option`.
-/

/-- Python `round(x, 2)`: round to two decimal places. -/
def round2 (x : ℚ) : ℚ := ((round (x * 100) : ℤ) : ℚ) / 100

/-- Weighted sum: dot product of a weight list with a score list. -/
def dot (ws ss : List ℚ) : ℚ := (List.zipWith (· * ·) ws ss).sum

/-- `determine_tier` from scoring_engine_4tier.py (lines 33-43). -/
def determine_tier (market_cap_billions : ℚ) : ℕ :=
  if market_cap_billions ≥ 200 then 1
  else if market_cap_billions ≥ 50 then 2
  else if market_cap_billions ≥ 10 then 3
  else 4

/-- `cap_score` from scoring_engine_4tier.py (lines 45-48). -/
def cap_score (score : ℚ) (maximum : ℚ) : ℚ := min score maximum

/-- `floor_score` from scoring_engine_4tier.py (lines 50-53). -/
def floor_score (score : ℚ) (minimum : ℚ) : ℚ := max score minimum

/-- `bracket_score` from scoring_engine_4tier.py (lines 55-65): first pair
whose threshold the value meets or exceeds; falls back to the last score.
The Python code raises on an empty list; we return 0 there (never used). -/
def bracket_score (value : ℚ) : List (ℚ × ℚ) → ℚ
  | [] => 0
  | (t, s) :: rest =>
    if value ≥ t then s
    else match rest with
      | [] => s
      | _ :: _ => bracket_score value rest

/-- The `business_type` strings consulted by tier2_growth and tier3_growth. -/
inductive BusinessType where
  | software
  | saas
  | non_cyclical
  | early_mid_cycle
  | late_cycle_secular
  | peak_cycle
  | early_mid_cycle_secular
  | mid_cycle
  | late_cycle
  | other
deriving DecidableEq

/-- The `disruption_type` strings consulted by tier4_disruption. -/
inductive DisruptionType where
  | attacking_100b_plus
  | creating_new_category
  | significant_share_gains
  | niche_10_50b
  | incremental
  | other
deriving DecidableEq

/-- The `market_structure` strings consulted by tier4_disruption. -/
inductive MarketStructure where
  | winner_take_most
  | oligopoly_forming
  | crowded_differentiated
  | highly_competitive
  | commodity_risk
  | other
deriving DecidableEq

/-- `moat_bonuses` flag set (tier1_quality). -/
structure MoatBonuses where
  network_effects : Bool := false
  economies_of_scale : Bool := false
  switching_costs : Bool := false
  intangible_assets : Bool := false
  regulatory_moat : Bool := false

/-- `mgmt_bonuses` flag set (tier1_quality). -/
structure MgmtBonuses where
  smart_ma : Bool := false
  consistent_buybacks : Bool := false
  growing_dividend : Bool := false

/-- `future_growth_bonuses` flag set (tier1_growth). -/
structure FutureGrowthBonuses where
  geographic_expansion : Bool := false
  new_product_cycles : Bool := false
  platform_effects : Bool := false
  multiple_growth_vectors : Bool := false

/-- `capital_allocation_bonuses` flag set (tier1_financial_health). -/
structure CapitalAllocationBonuses where
  buybacks_rnd_gt_10pct : Bool := false
  value_creating_ma : Bool := false
  growing_dividend : Bool := false
  disciplined_deployment : Bool := false

/-- `market_position_bonuses` flag set (tier2_quality). -/
structure MarketPositionBonuses where
  top_1_or_2 : Bool := false
  top_3_to_5 : Bool := false
  gaining_share : Bool := false
  category_leader : Bool := false

/-- `growth_driver_bonuses` flag set (tier2/tier3/tier4 growth). -/
structure GrowthDriverBonuses where
  multiple_segments_20plus : Bool := false
  geographic_expansion : Bool := false
  new_products : Bool := false
  platform_effects : Bool := false
  viral_network : Bool := false
  multiple_segments_25plus : Bool := false
  new_product_launches : Bool := false
  network_effects : Bool := false
  viral_growth_50plus : Bool := false
  platform_forming : Bool := false
  multiple_streams_35plus : Bool := false
  gov_enterprise_accelerating : Bool := false

/-- `institutional_bonuses` flag set (tier2_momentum). -/
structure InstitutionalBonuses where
  increasing_ownership : Bool := false
  smart_money : Bool := false
  insider_buying : Bool := false

/-- `analyst_momentum_bonuses` flag set (tier2/tier3 momentum). -/
structure AnalystMomentumBonuses where
  multiple_upgrades : Bool := false
  price_target_increases : Bool := false
  positive_revisions : Bool := false
  upgrades_3plus : Bool := false
  price_target_raises : Bool := false
  analyst_momentum : Bool := false

/-- `moat_development_bonuses` flag set (tier2_scale_moat). -/
structure MoatDevelopmentBonuses where
  network_effects : Bool := false
  switching_costs : Bool := false
  economies_of_scale : Bool := false
  brand_ecosystem : Bool := false
  data_ip_moat : Bool := false

/-- `partnership_bonuses` flag set (tier2_scale_moat, tier3_scale_inflection). -/
structure PartnershipBonuses where
  major_tech_partners : Bool := false
  gov_contracts : Bool := false
  ecosystem_integrations : Bool := false
  strategic_customers : Bool := false
  gov_enterprise : Bool := false
  critical_integrations : Bool := false
  ecosystem_role : Bool := false

/-- `insider_bonuses` flag set (tier3/tier4 valuation). -/
structure InsiderBonuses where
  recent_buying : Bool := false

/-- `profit_path_penalties` flag set (tier3_quality, tier4_quality). -/
structure ProfitPathPenalties where
  burn_accelerating : Bool := false
  no_guidance : Bool := false
  frequent_raises : Bool := false

/-- `moat_formation_bonuses` flag set (tier3_scale_inflection). -/
structure MoatFormationBonuses where
  network_effects : Bool := false
  switching_costs : Bool := false
  scale_advantages : Bool := false
  data_ip_moat : Bool := false
  brand_emerging : Bool := false

/-- `catalyst_bonuses` flag set (tier4_growth, tier4_disruption). -/
structure CatalystBonuses where
  major_launch_6mo : Bool := false
  market_expansion : Bool := false
  partnership_expected : Bool := false
  regulatory_milestone : Bool := false
  index_inclusion : Bool := false
  regulatory_approval : Bool := false
  acquisition_target : Bool := false

/-- `sentiment_bonuses` flag set (tier4_momentum). -/
structure SentimentBonuses where
  rising_mentions_bullish : Bool := false
  positive_reddit : Bool := false
  analyst_upgrades_3plus : Bool := false
  target_increases : Bool := false
  positive_media : Bool := false

/-- `sentiment_penalties` flag set (tier4_momentum). -/
structure SentimentPenalties where
  negative_trending : Bool := false
  unsustainable_meme : Bool := false

/-- `tech_moat_bonuses` flag set (tier4_disruption). -/
structure TechMoatBonuses where
  proprietary_ai_ml : Bool := false
  strong_patents : Bool := false
  unique_data_assets : Bool := false
  first_mover_scale : Bool := false
  unique_supply_chain : Bool := false

/-- The open input record passed to `calculate_score`.  Each scalar field is
`Option ℚ` (`none` = absent from the Python dict); each boolean field is
`Option Bool`; each nested bonus dict is a structure of `Bool` flags whose
default (also taken when the whole dict is absent) is `false`. -/
structure ScoreInput where
  market_cap_billions : Option ℚ := none
  pe_ratio : Option ℚ := none
  historical_pe_avg : Option ℚ := none
  fcf_yield_pct : Option ℚ := none
  peg_ratio : Option ℚ := none
  roic_pct : Option ℚ := none
  operating_margin_pct : Option ℚ := none
  margin_trend_bps_per_year : Option ℚ := none
  moat_bonuses : MoatBonuses := {}
  earnings_beat_rate_pct : Option ℚ := none
  mgmt_bonuses : MgmtBonuses := {}
  cash_conversion_ratio : Option ℚ := none
  revenue_cagr_3yr_pct : Option ℚ := none
  revenue_growth_recent_yoy_pct : Option ℚ := none
  eps_cagr_3yr_pct : Option ℚ := none
  tam_billions : Option ℚ := none
  market_share_pct : Option ℚ := none
  future_growth_bonuses : FutureGrowthBonuses := {}
  analyst_forward_growth_pct : Option ℚ := none
  return_12m_pct : Option ℚ := none
  spy_return_12m_pct : Option ℚ := none
  price : Option ℚ := none
  ma_50 : Option ℚ := none
  ma_200 : Option ℚ := none
  net_cash_billions : Option ℚ := none
  fcf_billions : Option ℚ := none
  capital_allocation_bonuses : CapitalAllocationBonuses := {}
  beta : Option ℚ := none
  is_profitable : Option Bool := none
  forward_pe : Option ℚ := none
  ps_ratio : Option ℚ := none
  sector_median_pe : Option ℚ := none
  sector_median_ps : Option ℚ := none
  revenue_billions : Option ℚ := none
  is_gaap_profitable : Option Bool := none
  path_to_profit_quarters : Option ℚ := none
  gross_margin_pct : Option ℚ := none
  is_saas : Option Bool := none
  nrr_pct : Option ℚ := none
  dollar_based_retention_pct : Option ℚ := none
  repeat_revenue_pct : Option ℚ := none
  customer_churn_pct : Option ℚ := none
  customer_growth_pct : Option ℚ := none
  top_customer_concentration_pct : Option ℚ := none
  market_position_bonuses : MarketPositionBonuses := {}
  revenue_growth_ttm_pct : Option ℚ := none
  years_of_25plus_growth : Option ℚ := none
  is_accelerating : Option Bool := none
  eps_growth_pct : Option ℚ := none
  market_penetration_pct : Option ℚ := none
  growth_driver_bonuses : GrowthDriverBonuses := {}
  business_type : Option BusinessType := none
  return_6m_pct : Option ℚ := none
  institutional_bonuses : InstitutionalBonuses := {}
  qqq_return_6m_pct : Option ℚ := none
  analyst_momentum_bonuses : AnalystMomentumBonuses := {}
  sector_avg_growth_pct : Option ℚ := none
  moat_development_bonuses : MoatDevelopmentBonuses := {}
  partnership_bonuses : PartnershipBonuses := {}
  insider_ownership_pct : Option ℚ := none
  insider_bonuses : InsiderBonuses := {}
  path_to_profit_months : Option ℚ := none
  profit_path_penalties : ProfitPathPenalties := {}
  ltv_cac_ratio : Option ℚ := none
  cac_payback_months : Option ℚ := none
  gross_margin_expanding : Option Bool := none
  cohorts_improving : Option Bool := none
  quarters_accelerating : Option ℚ := none
  iwm_return_6m_pct : Option ℚ := none
  volume_change_pct : Option ℚ := none
  sentiment_positive : Option Bool := none
  moat_formation_bonuses : MoatFormationBonuses := {}
  recurring_revenue_pct : Option ℚ := none
  top_3_concentration_pct : Option ℚ := none
  catalyst_bonuses : CatalystBonuses := {}
  iwo_return_6m_pct : Option ℚ := none
  sentiment_bonuses : SentimentBonuses := {}
  sentiment_penalties : SentimentPenalties := {}
  disruption_type : Option DisruptionType := none
  tech_moat_bonuses : TechMoatBonuses := {}
  market_structure : Option MarketStructure := none

/-! ## Tier 1: Mega-Cap Core -/

/-- P/E sub-score of `tier1_valuation` (scoring_engine_4tier.py lines 76-85). -/
def tier1_pe_score (d : ScoreInput) : ℚ :=
  let current_pe := d.pe_ratio.getD 0
  let historical_pe := d.historical_pe_avg.getD current_pe
  if historical_pe > 0 then
    cap_score (floor_score (100 - (current_pe / historical_pe - 1) * 100) 0) 100
  else 50

def tier1_fcf_brackets : List (ℚ × ℚ) := [(5, 100), (3, 80), (2, 60), (1, 40), (0, 20)]

/-- FCF-yield sub-score of `tier1_valuation` (lines 87-90). -/
def tier1_fcf_score (d : ScoreInput) : ℚ :=
  bracket_score (d.fcf_yield_pct.getD 0) tier1_fcf_brackets

/-- PEG sub-score of `tier1_valuation` (lines 92-104): below 1.0 scores 100,
otherwise the first of `peg_brackets_reversed` with `peg_ratio <= threshold`,
defaulting to 30. -/
def tier1_peg_score (d : ScoreInput) : ℚ :=
  let peg := d.peg_ratio.getD 999
  if peg < 1 then 100
  else if peg ≤ 1 then 100
  else if peg ≤ 1.5 then 85
  else if peg ≤ 2 then 70
  else if peg ≤ 2.5 then 50
  else 30

def tier1_valuation_weights : List ℚ := [0.35, 0.30, 0.35]

/-- `tier1_valuation` (lines 71-108). -/
def tier1_valuation (d : ScoreInput) : ℚ :=
  round2 (dot tier1_valuation_weights
    [tier1_pe_score d, tier1_fcf_score d, tier1_peg_score d])

def tier1_roic_brackets : List (ℚ × ℚ) := [(25, 100), (20, 90), (15, 75), (10, 50), (0, 25)]

/-- ROIC sub-score of `tier1_quality` (lines 116-119). -/
def tier1_roic_score (d : ScoreInput) : ℚ :=
  bracket_score (d.roic_pct.getD 0) tier1_roic_brackets

def tier1_op_margin_brackets : List (ℚ × ℚ) := [(30, 100), (20, 85), (15, 70), (10, 50), (0, 30)]

/-- Operating-margin sub-score of `tier1_quality` (lines 121-124). -/
def tier1_op_margin_score (d : ScoreInput) : ℚ :=
  bracket_score (d.operating_margin_pct.getD 0) tier1_op_margin_brackets

def tier1_margin_trend_brackets : List (ℚ × ℚ) :=
  [(200, 100), (100, 85), (50, 70), (-50, 60), (-999, 25)]

/-- Margin-trend sub-score of `tier1_quality` (lines 126-129). -/
def tier1_margin_trend_score (d : ScoreInput) : ℚ :=
  bracket_score (d.margin_trend_bps_per_year.getD 0) tier1_margin_trend_brackets

/-- Competitive-moat sub-score of `tier1_quality` (lines 131-145). -/
def tier1_moat_score (d : ScoreInput) : ℚ :=
  let b := d.moat_bonuses
  cap_score (50 + (if b.network_effects then 25 else 0)
    + (if b.economies_of_scale then 20 else 0)
    + (if b.switching_costs then 20 else 0)
    + (if b.intangible_assets then 15 else 0)
    + (if b.regulatory_moat then 10 else 0)) 100

/-- Management-execution sub-score of `tier1_quality` (lines 147-166). -/
def tier1_mgmt_score (d : ScoreInput) : ℚ :=
  let earnings_beat_rate := d.earnings_beat_rate_pct.getD 50
  let mgmt_base : ℚ :=
    if earnings_beat_rate > 80 then 100
    else if earnings_beat_rate ≥ 70 then 85
    else if earnings_beat_rate ≥ 60 then 70
    else 50
  let b := d.mgmt_bonuses
  cap_score (mgmt_base + (if b.smart_ma then 10 else 0)
    + (if b.consistent_buybacks then 8 else 0)
    + (if b.growing_dividend then 7 else 0)) 100

def tier1_cash_brackets : List (ℚ × ℚ) := [(1.2, 100), (1, 80), (0.8, 60), (0, 30)]

/-- Cash-conversion sub-score of `tier1_quality` (lines 168-171). -/
def tier1_cash_conv_score (d : ScoreInput) : ℚ :=
  bracket_score (d.cash_conversion_ratio.getD 0) tier1_cash_brackets

def tier1_quality_weights : List ℚ := [0.30, 0.20, 0.12, 0.18, 0.10, 0.10]

/-- `tier1_quality` (lines 110-182). -/
def tier1_quality (d : ScoreInput) : ℚ :=
  round2 (dot tier1_quality_weights
    [tier1_roic_score d, tier1_op_margin_score d, tier1_margin_trend_score d,
     tier1_moat_score d, tier1_mgmt_score d, tier1_cash_conv_score d])

def tier1_rev_brackets : List (ℚ × ℚ) :=
  [(20, 100), (15, 85), (10, 65), (7, 45), (5, 30), (0, 15)]

/-- Revenue-CAGR sub-score of `tier1_growth` (lines 190-193). -/
def tier1_rev_growth_score (d : ScoreInput) : ℚ :=
  bracket_score (d.revenue_cagr_3yr_pct.getD 0) tier1_rev_brackets

/-- Growth-consistency sub-score of `tier1_growth` (lines 195-211). -/
def tier1_consistency_score (d : ScoreInput) : ℚ :=
  let consistency_base : ℚ := 50
  let delta := d.revenue_growth_recent_yoy_pct.getD 0 - d.revenue_cagr_3yr_pct.getD 0
  let s : ℚ :=
    if delta > 3 then consistency_base + 50
    else if delta ≥ 1 then consistency_base + 30
    else if |delta| ≤ 1 then consistency_base + 10
    else if delta ≥ -3 then consistency_base - 10
    else consistency_base - 30
  cap_score s 100

def tier1_eps_brackets : List (ℚ × ℚ) := [(25, 100), (18, 85), (12, 70), (8, 50), (0, 30)]

/-- EPS-growth sub-score of `tier1_growth` (lines 213-224), including the
operating-leverage bonus / margin-compression penalty. -/
def tier1_eps_score (d : ScoreInput) : ℚ :=
  let rev_cagr := d.revenue_cagr_3yr_pct.getD 0
  let eps_cagr := d.eps_cagr_3yr_pct.getD 0
  let base := bracket_score eps_cagr tier1_eps_brackets
  let s : ℚ :=
    if eps_cagr > rev_cagr + 5 then base + 15
    else if eps_cagr < rev_cagr - 5 then base - 15
    else base
  cap_score (floor_score s 0) 100

/-- Future-growth sub-score of `tier1_growth` (lines 226-249). -/
def tier1_future_score (d : ScoreInput) : ℚ :=
  let tam_billions := d.tam_billions.getD 0
  let market_share_pct := d.market_share_pct.getD 100
  let future_base : ℚ :=
    if tam_billions > 500 ∧ market_share_pct < 20 then 100
    else if tam_billions ≥ 200 ∧ market_share_pct < 30 then 85
    else if tam_billions ≥ 100 ∧ market_share_pct < 40 then 70
    else 50
  let b := d.future_growth_bonuses
  cap_score (future_base + (if b.geographic_expansion then 10 else 0)
    + (if b.new_product_cycles then 10 else 0)
    + (if b.platform_effects then 10 else 0)
    + (if b.multiple_growth_vectors then 10 else 0)) 100

def tier1_analyst_brackets : List (ℚ × ℚ) := [(15, 100), (12, 80), (8, 60), (5, 40), (0, 20)]

/-- Analyst-consensus sub-score of `tier1_growth` (lines 251-254). -/
def tier1_analyst_score (d : ScoreInput) : ℚ :=
  bracket_score (d.analyst_forward_growth_pct.getD 0) tier1_analyst_brackets

def tier1_growth_weights : List ℚ := [0.30, 0.15, 0.25, 0.15, 0.15]

/-- `tier1_growth` (lines 184-264). -/
def tier1_growth (d : ScoreInput) : ℚ :=
  round2 (dot tier1_growth_weights
    [tier1_rev_growth_score d, tier1_consistency_score d, tier1_eps_score d,
     tier1_future_score d, tier1_analyst_score d])

def tier1_return_brackets : List (ℚ × ℚ) :=
  [(30, 100), (20, 80), (10, 60), (0, 45), (-10, 40), (-999, 60)]

/-- 12-month-return sub-score of `tier1_momentum` (lines 271-277); below -10
the code scores a flat 60, otherwise it brackets over the list minus its
last entry (`return_brackets[:-1]`). -/
def tier1_return_score (d : ScoreInput) : ℚ :=
  let return_12m := d.return_12m_pct.getD 0
  if return_12m < -10 then 60
  else bracket_score return_12m tier1_return_brackets.dropLast

def tier1_rel_brackets : List (ℚ × ℚ) := [(10, 100), (5, 75), (0, 60), (-5, 50), (-999, 30)]

/-- Relative-strength sub-score of `tier1_momentum` (lines 279-285). -/
def tier1_rel_score (d : ScoreInput) : ℚ :=
  let rel_perf := d.return_12m_pct.getD 0 - d.spy_return_12m_pct.getD 0
  bracket_score rel_perf tier1_rel_brackets

/-- Technical-setup sub-score of `tier1_momentum` (lines 287-301); the same
ladder is reused by `tier2_momentum` (lines 837-851). -/
def technical_setup_score (d : ScoreInput) : ℚ :=
  let price := d.price.getD 0
  let ma_50 := d.ma_50.getD 0
  let ma_200 := d.ma_200.getD 0
  if price > ma_50 ∧ price > ma_200 then 100
  else if price > ma_200 then 70
  else if price > ma_50 then 55
  else if ma_50 < price ∧ price < ma_200 then 50
  else 30

def tier1_momentum_weights : List ℚ := [0.40, 0.35, 0.25]

/-- `tier1_momentum` (lines 266-309). -/
def tier1_momentum (d : ScoreInput) : ℚ :=
  round2 (dot tier1_momentum_weights
    [tier1_return_score d, tier1_rel_score d, technical_setup_score d])

/-- Net-cash sub-score of `tier1_financial_health` (lines 316-330). -/
def tier1_net_cash_score (d : ScoreInput) : ℚ :=
  let net_cash_billions := d.net_cash_billions.getD 0
  if net_cash_billions > 75 then 100
  else if net_cash_billions ≥ 50 then 90
  else if net_cash_billions ≥ 25 then 80
  else if net_cash_billions ≥ 0 then 70
  else if net_cash_billions ≥ -50 then 60
  else 40

def tier1_fh_fcf_brackets : List (ℚ × ℚ) := [(20, 100), (15, 90), (10, 80), (5, 60), (0, 40)]

/-- FCF-generation sub-score of `tier1_financial_health` (lines 332-335). -/
def tier1_fh_fcf_score (d : ScoreInput) : ℚ :=
  bracket_score (d.fcf_billions.getD 0) tier1_fh_fcf_brackets

/-- Capital-allocation sub-score of `tier1_financial_health` (lines 337-349). -/
def tier1_cap_alloc_score (d : ScoreInput) : ℚ :=
  let b := d.capital_allocation_bonuses
  cap_score (50 + (if b.buybacks_rnd_gt_10pct then 25 else 0)
    + (if b.value_creating_ma then 20 else 0)
    + (if b.growing_dividend then 15 else 0)
    + (if b.disciplined_deployment then 10 else 0)) 100

def tier1_fh_weights : List ℚ := [0.50, 0.40, 0.10]

/-- `tier1_financial_health` (lines 311-357). -/
def tier1_financial_health (d : ScoreInput) : ℚ :=
  round2 (dot tier1_fh_weights
    [tier1_net_cash_score d, tier1_fh_fcf_score d, tier1_cap_alloc_score d])

def tier1_composite_weights : List ℚ := [0.20, 0.35, 0.25, 0.10, 0.10]

/-- `calculate_tier1_composite` (lines 359-383). -/
def calculate_tier1_composite (d : ScoreInput) : ℚ × List (String × ℚ) :=
  let v_score := tier1_valuation d
  let q_score := tier1_quality d
  let g_score := tier1_growth d
  let m_score := tier1_momentum d
  let fh_score := tier1_financial_health d
  (round2 (dot tier1_composite_weights [v_score, q_score, g_score, m_score, fh_score]),
   [("Valuation", v_score), ("Quality", q_score), ("Growth", g_score),
    ("Momentum", m_score), ("Financial_Health", fh_score)])

/-! ## Tier 2: Large-Cap Growth -/

/-- Forward-P/E-or-P/S sub-score of `tier2_valuation` (lines 394-436).
Profitable issuers ladder the forward P/E; unprofitable issuers ladder the
P/S ratio and add growth-context bonuses. -/
def tier2_pe_ps_score (d : ScoreInput) : ℚ :=
  if d.is_profitable.getD true then
    let forward_pe := d.forward_pe.getD 999
    if forward_pe < 25 then 100
    else if forward_pe < 35 then 85
    else if forward_pe < 50 then 70
    else if forward_pe < 70 then 50
    else 35
  else
    let ps := d.ps_ratio.getD 999
    let growth_rate := d.revenue_growth_recent_yoy_pct.getD 0
    let base : ℚ :=
      if ps < 8 then 100
      else if ps < 12 then 85
      else if ps < 18 then 70
      else if ps < 25 then 50
      else if ps < 35 then 35
      else 25
    let s : ℚ :=
      if growth_rate > 50 ∧ ps > 35 then base + 15
      else if growth_rate > 50 ∧ 25 ≤ ps ∧ ps ≤ 35 then base + 25
      else if growth_rate > 35 ∧ 18 ≤ ps ∧ ps ≤ 25 then base + 20
      else base
    cap_score s 100

/-- PEG sub-score of `tier2_valuation` (lines 438-449). -/
def tier2_peg_score (d : ScoreInput) : ℚ :=
  let peg := d.peg_ratio.getD 999
  if peg < 1 then 100
  else if peg < 1.5 then 85
  else if peg < 2 then 70
  else if peg < 2.5 then 50
  else 30

/-- Relative-valuation sub-score of `tier2_valuation` (lines 451-464).  Note
the Python defaults for the missing fields are the already-computed
`pe_ps_score`. -/
def tier2_rel_val_score (d : ScoreInput) : ℚ :=
  let pe_ps := tier2_pe_ps_score d
  let sector_median_pe := d.sector_median_pe.getD pe_ps
  let stock_pe := d.forward_pe.getD pe_ps
  if stock_pe < sector_median_pe then 100
  else if stock_pe ≤ sector_median_pe * 1.15 then 80
  else if stock_pe ≤ sector_median_pe * 1.30 then 60
  else if stock_pe ≤ sector_median_pe * 1.50 then 40
  else 20

def tier2_valuation_weights : List ℚ := [0.55, 0.25, 0.20]

/-- `tier2_valuation` (lines 389-472). -/
def tier2_valuation (d : ScoreInput) : ℚ :=
  round2 (dot tier2_valuation_weights
    [tier2_pe_ps_score d, tier2_peg_score d, tier2_rel_val_score d])

def tier2_rev_scale_brackets : List (ℚ × ℚ) :=
  [(10, 100), (7, 90), (5, 80), (3, 70), (2, 60), (0, 45)]

/-- Revenue-scale sub-score of `tier2_quality` (lines 480-483). -/
def tier2_rev_scale_score (d : ScoreInput) : ℚ :=
  bracket_score (d.revenue_billions.getD 0) tier2_rev_scale_brackets

/-- Profitability-status sub-score of `tier2_quality` (lines 485-507). -/
def tier2_profit_score (d : ScoreInput) : ℚ :=
  if d.is_gaap_profitable.getD false then
    let op_margin := d.operating_margin_pct.getD 0
    if op_margin > 20 then 100
    else if op_margin ≥ 15 then 90
    else if op_margin ≥ 10 then 75
    else if op_margin ≥ 5 then 60
    else 50
  else
    let q := d.path_to_profit_quarters.getD 999
    if q < 4 then 40
    else if q < 8 then 30
    else 15

/-- Gross-margin sub-score of `tier2_quality` (lines 509-523). -/
def tier2_gross_margin_score (d : ScoreInput) : ℚ :=
  let gross_margin := d.gross_margin_pct.getD 0
  if gross_margin > 75 then 100
  else if gross_margin ≥ 65 then 90
  else if gross_margin ≥ 55 then 80
  else if gross_margin ≥ 45 then 70
  else if gross_margin ≥ 35 then 55
  else 35

/-- Margin-trajectory sub-score of `tier2_quality` (lines 525-539). -/
def tier2_margin_traj_score (d : ScoreInput) : ℚ :=
  let margin_trend_bps := d.margin_trend_bps_per_year.getD 0
  if margin_trend_bps > 300 then 100
  else if margin_trend_bps ≥ 200 then 90
  else if margin_trend_bps ≥ 100 then 80
  else if margin_trend_bps ≥ 50 then 65
  else if |margin_trend_bps| ≤ 50 then 50
  else 25

/-- Non-SaaS repeat-revenue proxy of `tier2_quality` (lines 575-583). -/
def tier2_repeat_revenue_proxy (d : ScoreInput) : ℚ :=
  let repeat_revenue_pct := d.repeat_revenue_pct.getD 0
  if repeat_revenue_pct > 70 then 100
  else if repeat_revenue_pct ≥ 50 then 80
  else if repeat_revenue_pct ≥ 30 then 60
  else 40

/-- Non-SaaS churn proxy of `tier2_quality` (lines 585-593). -/
def tier2_churn_proxy (d : ScoreInput) : ℚ :=
  let customer_churn_pct := d.customer_churn_pct.getD 100
  if customer_churn_pct < 5 then 100
  else if customer_churn_pct < 10 then 75
  else if customer_churn_pct < 15 then 50
  else 30

/-- Non-SaaS customer-growth proxy of `tier2_quality` (lines 595-603). -/
def tier2_customer_growth_proxy (d : ScoreInput) : ℚ :=
  let customer_growth_pct := d.customer_growth_pct.getD 0
  if customer_growth_pct > 25 then 100
  else if customer_growth_pct ≥ 15 then 80
  else if customer_growth_pct ≥ 5 then 60
  else 40

/-- Non-SaaS concentration proxy of `tier2_quality` (lines 605-613). -/
def tier2_concentration_proxy (d : ScoreInput) : ℚ :=
  let c := d.top_customer_concentration_pct.getD 100
  if c < 10 then 85
  else if c < 20 then 70
  else if c < 30 then 50
  else 25

/-- Customer-retention sub-score of `tier2_quality` (lines 541-615): SaaS
issuers ladder NRR with a dollar-based-retention kicker; non-SaaS issuers
take the maximum of the four proxy scores collected in `scores`. -/
def tier2_retention_score (d : ScoreInput) : ℚ :=
  if d.is_saas.getD false then
    let nrr_pct := d.nrr_pct.getD 100
    let dbr_pct := d.dollar_based_retention_pct.getD 100
    let retention_base : ℚ :=
      if nrr_pct > 130 then 100
      else if nrr_pct ≥ 120 then 90
      else if nrr_pct ≥ 110 then 80
      else if nrr_pct ≥ 100 then 65
      else if nrr_pct ≥ 90 then 45
      else 25
    cap_score (retention_base + (if dbr_pct > 105 then 15 else 0)) 100
  else
    let scores := [tier2_repeat_revenue_proxy d, tier2_churn_proxy d,
      tier2_customer_growth_proxy d, tier2_concentration_proxy d]
    scores.foldl max 0

/-- Market-position sub-score of `tier2_quality` (lines 617-631).  Note the
first two flags are an if/elif pair. -/
def tier2_market_pos_score (d : ScoreInput) : ℚ :=
  let b := d.market_position_bonuses
  cap_score (50
    + (if b.top_1_or_2 then 35 else if b.top_3_to_5 then 25 else 0)
    + (if b.gaining_share then 25 else 0)
    + (if b.category_leader then 30 else 0)) 100

def tier2_quality_weights : List ℚ := [0.15, 0.18, 0.20, 0.15, 0.20, 0.12]

/-- `tier2_quality` (lines 474-642). -/
def tier2_quality (d : ScoreInput) : ℚ :=
  round2 (dot tier2_quality_weights
    [tier2_rev_scale_score d, tier2_profit_score d, tier2_gross_margin_score d,
     tier2_margin_traj_score d, tier2_retention_score d, tier2_market_pos_score d])

/-- Revenue-growth sub-score of `tier2_growth` (lines 650-666): an inlined
if/elif ladder whose topmost bracket bound (35) is strict. -/
def tier2_rev_growth_score (ttm_growth : ℚ) : ℚ :=
  if ttm_growth > 35 then 100
  else if ttm_growth ≥ 28 then 90
  else if ttm_growth ≥ 22 then 80
  else if ttm_growth ≥ 18 then 70
  else if ttm_growth ≥ 15 then 55
  else if ttm_growth ≥ 12 then 40
  else 20

/-- Growth-consistency sub-score of `tier2_growth` (lines 668-681). -/
def tier2_consistency_score (d : ScoreInput) : ℚ :=
  let ttm_growth := d.revenue_growth_ttm_pct.getD 0
  let years := d.years_of_25plus_growth.getD 0
  if years ≥ 3 then 100
  else if years = 2 then 85
  else if d.is_accelerating.getD false then 80
  else if ttm_growth ≥ 20 then 60
  else 20

/-- Forward-estimate sub-score of `tier2_growth` (lines 683-703). -/
def tier2_forward_score (d : ScoreInput) : ℚ :=
  let forward := d.analyst_forward_growth_pct.getD 0
  let current_growth := d.revenue_growth_ttm_pct.getD 0
  let base : ℚ :=
    if forward > 30 then 100
    else if forward ≥ 25 then 85
    else if forward ≥ 20 then 70
    else if forward ≥ 15 then 55
    else if forward ≥ 10 then 40
    else 20
  cap_score (base + (if forward > current_growth + 5 then 20 else 0)) 100

/-- EPS-versus-revenue sub-score of `tier2_growth` (lines 705-718). -/
def tier2_eps_vs_rev_score (d : ScoreInput) : ℚ :=
  let eps_growth := d.eps_growth_pct.getD 0
  let rev_growth := d.revenue_growth_ttm_pct.getD 0
  let base : ℚ := 50
  let s : ℚ :=
    if eps_growth > rev_growth + 7 then base + 50
    else if |eps_growth - rev_growth| ≤ 5 then base + 20
    else if eps_growth < rev_growth - 5 then base - 20
    else base
  cap_score s 100

/-- TAM-and-penetration sub-score of `tier2_growth` (lines 720-733). -/
def tier2_tam_score (d : ScoreInput) : ℚ :=
  let tam_billions := d.tam_billions.getD 0
  let penetration_pct := d.market_penetration_pct.getD 100
  if tam_billions > 100 ∧ penetration_pct < 10 then 100
  else if tam_billions ≥ 75 ∧ penetration_pct < 12 then 90
  else if tam_billions ≥ 50 ∧ penetration_pct < 15 then 80
  else if tam_billions ≥ 25 ∧ penetration_pct < 20 then 65
  else 40

/-- Growth-drivers sub-score of `tier2_growth` (lines 735-751). -/
def tier2_drivers_score (d : ScoreInput) : ℚ :=
  let b := d.growth_driver_bonuses
  cap_score (50 + (if b.multiple_segments_20plus then 25 else 0)
    + (if b.geographic_expansion then 15 else 0)
    + (if b.new_products then 15 else 0)
    + (if b.platform_effects then 15 else 0)
    + (if b.viral_network then 10 else 0)) 100

/-- Cyclicality sub-score of `tier2_growth` (lines 753-765). -/
def tier2_cyclicality_score (d : ScoreInput) : ℚ :=
  match d.business_type.getD .software with
  | .software => 100
  | .saas => 100
  | .early_mid_cycle => 85
  | .late_cycle_secular => 70
  | .peak_cycle => 40
  | _ => 20

def tier2_growth_weights : List ℚ := [0.25, 0.15, 0.20, 0.10, 0.15, 0.10, 0.05]

/-- `tier2_growth` (lines 644-777). -/
def tier2_growth (d : ScoreInput) : ℚ :=
  round2 (dot tier2_growth_weights
    [tier2_rev_growth_score (d.revenue_growth_ttm_pct.getD 0), tier2_consistency_score d,
     tier2_forward_score d, tier2_eps_vs_rev_score d, tier2_tam_score d,
     tier2_drivers_score d, tier2_cyclicality_score d])

/-- 6-month-return sub-score of `tier2_momentum` (lines 784-809), with
institutional-flow bonuses. -/
def tier2_return_score (d : ScoreInput) : ℚ :=
  let return_6m := d.return_6m_pct.getD 0
  let base : ℚ :=
    if return_6m > 50 then 100
    else if return_6m ≥ 35 then 85
    else if return_6m ≥ 20 then 70
    else if return_6m ≥ 10 then 50
    else if return_6m ≥ 0 then 40
    else 60
  let b := d.institutional_bonuses
  cap_score (base + (if b.increasing_ownership then 15 else 0)
    + (if b.smart_money then 10 else 0)
    + (if b.insider_buying then 10 else 0)) 100

/-- Relative-strength sub-score of `tier2_momentum` (lines 811-835), with
analyst-momentum bonuses. -/
def tier2_rel_score (d : ScoreInput) : ℚ :=
  let rel_perf := d.return_6m_pct.getD 0 - d.qqq_return_6m_pct.getD 0
  let base : ℚ :=
    if rel_perf > 15 then 100
    else if rel_perf ≥ 8 then 80
    else if rel_perf ≥ 0 then 60
    else if rel_perf ≥ -8 then 45
    else 30
  let b := d.analyst_momentum_bonuses
  cap_score (base + (if b.multiple_upgrades then 15 else 0)
    + (if b.price_target_increases then 10 else 0)
    + (if b.positive_revisions then 10 else 0)) 100

def tier2_momentum_weights : List ℚ := [0.40, 0.35, 0.25]

/-- `tier2_momentum` (lines 779-859). -/
def tier2_momentum (d : ScoreInput) : ℚ :=
  round2 (dot tier2_momentum_weights
    [tier2_return_score d, tier2_rel_score d, technical_setup_score d])

/-- Competitive-position sub-score of `tier2_scale_moat` (lines 867-878). -/
def tier2_comp_pos_score (d : ScoreInput) : ℚ :=
  let company_growth := d.revenue_growth_ttm_pct.getD 0
  let sector_growth := d.sector_avg_growth_pct.getD 0
  if company_growth > sector_growth * 1.5 then 100
  else if company_growth > sector_growth * 1.2 then 80
  else if company_growth ≥ sector_growth then 60
  else 30

/-- Moat-development sub-score of `tier2_scale_moat` (lines 880-896). -/
def tier2_moat_score (d : ScoreInput) : ℚ :=
  let b := d.moat_development_bonuses
  cap_score (50 + (if b.network_effects then 30 else 0)
    + (if b.switching_costs then 25 else 0)
    + (if b.economies_of_scale then 20 else 0)
    + (if b.brand_ecosystem then 20 else 0)
    + (if b.data_ip_moat then 15 else 0)) 100

/-- Operating-leverage sub-score of `tier2_scale_moat` (lines 898-909). -/
def tier2_op_leverage_score (d : ScoreInput) : ℚ :=
  let margin_expansion_bps := d.margin_trend_bps_per_year.getD 0
  let revenue_growth_pct := d.revenue_growth_ttm_pct.getD 0
  if margin_expansion_bps > revenue_growth_pct * 10 then 100
  else if margin_expansion_bps > 0 then 75
  else if margin_expansion_bps > -100 then 50
  else 30

/-- Strategic-partnerships sub-score of `tier2_scale_moat` (lines 911-925). -/
def tier2_partnership_score (d : ScoreInput) : ℚ :=
  let b := d.partnership_bonuses
  cap_score (50 + (if b.major_tech_partners then 25 else 0)
    + (if b.gov_contracts then 25 else 0)
    + (if b.ecosystem_integrations then 20 else 0)
    + (if b.strategic_customers then 15 else 0)) 100

def tier2_sm_weights : List ℚ := [0.35, 0.30, 0.20, 0.15]

/-- `tier2_scale_moat` (lines 861-934). -/
def tier2_scale_moat (d : ScoreInput) : ℚ :=
  round2 (dot tier2_sm_weights
    [tier2_comp_pos_score d, tier2_moat_score d, tier2_op_leverage_score d,
     tier2_partnership_score d])

def tier2_composite_weights : List ℚ := [0.18, 0.28, 0.32, 0.12, 0.10]

/-- `calculate_tier2_composite` (lines 936-960). -/
def calculate_tier2_composite (d : ScoreInput) : ℚ × List (String × ℚ) :=
  let v_score := tier2_valuation d
  let q_score := tier2_quality d
  let g_score := tier2_growth d
  let m_score := tier2_momentum d
  let sm_score := tier2_scale_moat d
  (round2 (dot tier2_composite_weights [v_score, q_score, g_score, m_score, sm_score]),
   [("Valuation", v_score), ("Quality", q_score), ("Growth", g_score),
    ("Momentum", m_score), ("Scale_Moat", sm_score)])

/-! ## Tier 3: Mid-Cap Emerging -/

/-- P/S sub-score of `tier3_valuation` (lines 971-996), with growth-context
bonuses. -/
def tier3_ps_score (d : ScoreInput) : ℚ :=
  let ps := d.ps_ratio.getD 999
  let growth_rate := d.revenue_growth_ttm_pct.getD 0
  let base : ℚ :=
    if ps < 10 then 100
    else if ps < 15 then 85
    else if ps < 22 then 70
    else if ps < 30 then 55
    else if ps < 40 then 40
    else 30
  let s : ℚ :=
    if growth_rate > 40 ∧ 22 ≤ ps ∧ ps ≤ 30 then base + 25
    else if growth_rate > 50 ∧ 30 ≤ ps ∧ ps ≤ 40 then base + 30
    else if growth_rate > 60 ∧ ps > 40 then base + 20
    else base
  cap_score s 100

/-- Relative-valuation sub-score of `tier3_valuation` (lines 998-1009).  The
missing `sector_median_ps` defaults to the stock's own P/S ratio. -/
def tier3_rel_val_score (d : ScoreInput) : ℚ :=
  let ps := d.ps_ratio.getD 999
  let sector_median_ps := d.sector_median_ps.getD ps
  if ps < sector_median_ps then 100
  else if ps ≤ sector_median_ps then 75
  else if ps ≤ sector_median_ps * 1.5 then 60
  else if ps ≤ sector_median_ps * 2 then 40
  else 20

/-- Insider-ownership sub-score of `tier3_valuation` (lines 1011-1031). -/
def tier3_insider_score (d : ScoreInput) : ℚ :=
  let pct := d.insider_ownership_pct.getD 0
  let base : ℚ :=
    if pct > 20 then 100
    else if pct ≥ 15 then 90
    else if pct ≥ 10 then 75
    else if pct ≥ 5 then 60
    else 40
  cap_score (base + (if d.insider_bonuses.recent_buying then 20 else 0)
    + (if pct > 25 then 15 else 0)) 100

def tier3_valuation_weights : List ℚ := [0.60, 0.25, 0.15]

/-- `tier3_valuation` (lines 966-1038). -/
def tier3_valuation (d : ScoreInput) : ℚ :=
  round2 (dot tier3_valuation_weights
    [tier3_ps_score d, tier3_rel_val_score d, tier3_insider_score d])

/-- Revenue-scale sub-score of `tier3_quality` (lines 1046-1059). -/
def tier3_scale_score (d : ScoreInput) : ℚ :=
  let revenue_billions := d.revenue_billions.getD 0
  if revenue_billions > 5 then 100
  else if revenue_billions ≥ 3 then 85
  else if revenue_billions ≥ 2 then 75
  else if revenue_billions ≥ 1 then 60
  else if revenue_billions ≥ 0.5 then 45
  else 30

/-- Profitability-path sub-score of `tier3_quality` (lines 1061-1093), with
penalties floored at 0. -/
def tier3_profit_score (d : ScoreInput) : ℚ :=
  let op_margin := d.operating_margin_pct.getD 0
  let path_to_profit_months := d.path_to_profit_months.getD 999
  let base : ℚ :=
    if d.is_profitable.getD false then
      if op_margin > 15 then 100
      else if op_margin ≥ 10 then 85
      else if op_margin ≥ 5 then 70
      else 60
    else
      if path_to_profit_months < 12 then 50
      else if path_to_profit_months < 24 then 40
      else if path_to_profit_months < 36 then 30
      else 15
  let p := d.profit_path_penalties
  floor_score (base - (if p.burn_accelerating then 20 else 0)
    - (if p.no_guidance then 15 else 0)
    - (if p.frequent_raises then 10 else 0)) 0

/-- Gross-margin sub-score of `tier3_quality` (lines 1095-1108). -/
def tier3_gross_score (d : ScoreInput) : ℚ :=
  let gross_margin := d.gross_margin_pct.getD 0
  if gross_margin > 75 then 100
  else if gross_margin ≥ 65 then 90
  else if gross_margin ≥ 55 then 80
  else if gross_margin ≥ 45 then 65
  else if gross_margin ≥ 35 then 50
  else 30

/-- Unit-economics sub-score of `tier3_quality` (lines 1110-1132): LTV/CAC
when at least 1, otherwise CAC payback, margin expansion, or cohort proxies. -/
def tier3_unit_econ_score (d : ScoreInput) : ℚ :=
  let ltv_cac := d.ltv_cac_ratio.getD 0
  if ltv_cac > 3 then 100
  else if ltv_cac ≥ 2 then 75
  else if ltv_cac ≥ 1 then 40
  else
    if d.cac_payback_months.getD 999 < 12 then 85
    else if d.gross_margin_expanding.getD false then 70
    else if d.cohorts_improving.getD false then 60
    else 40

/-- Customer-quality sub-score of `tier3_quality` (lines 1134-1183): SaaS
ladders NRR; non-SaaS takes the maximum of concentration, customer-growth,
and repeat-revenue proxies. -/
def tier3_customer_score (d : ScoreInput) : ℚ :=
  if d.is_saas.getD false then
    let nrr_pct := d.nrr_pct.getD 100
    if nrr_pct > 125 then 100
    else if nrr_pct ≥ 115 then 85
    else if nrr_pct ≥ 105 then 70
    else if nrr_pct ≥ 95 then 50
    else 30
  else
    let concentration := d.top_customer_concentration_pct.getD 100
    let customer_growth := d.customer_growth_pct.getD 0
    let repeat_revenue := d.repeat_revenue_pct.getD 0
    let s1 : ℚ :=
      if concentration < 10 then 100
      else if concentration < 20 then 80
      else if concentration < 30 then 60
      else 30
    let s2 : ℚ :=
      if customer_growth > 25 then 100
      else if customer_growth ≥ 15 then 80
      else if customer_growth ≥ 5 then 60
      else 40
    let s3 : ℚ :=
      if repeat_revenue > 60 then 100
      else if repeat_revenue ≥ 40 then 75
      else if repeat_revenue ≥ 20 then 50
      else 30
    [s1, s2, s3].foldl max 0

def tier3_quality_weights : List ℚ := [0.18, 0.20, 0.22, 0.20, 0.20]

/-- `tier3_quality` (lines 1040-1192). -/
def tier3_quality (d : ScoreInput) : ℚ :=
  round2 (dot tier3_quality_weights
    [tier3_scale_score d, tier3_profit_score d, tier3_gross_score d,
     tier3_unit_econ_score d, tier3_customer_score d])

/-- Revenue-growth sub-score of `tier3_growth` (lines 1200-1215). -/
def tier3_rev_score (d : ScoreInput) : ℚ :=
  let ttm_growth := d.revenue_growth_ttm_pct.getD 0
  if ttm_growth > 50 then 100
  else if ttm_growth ≥ 40 then 90
  else if ttm_growth ≥ 32 then 80
  else if ttm_growth ≥ 25 then 70
  else if ttm_growth ≥ 20 then 55
  else if ttm_growth ≥ 15 then 35
  else 15

/-- Growth-acceleration sub-score of `tier3_growth` (lines 1217-1232): 10
extra points per quarter of acceleration beyond 4, capped at 100. -/
def tier3_accel_score (d : ScoreInput) : ℚ :=
  let quarters_accelerating := d.quarters_accelerating.getD 0
  let ttm_growth := d.revenue_growth_ttm_pct.getD 0
  let base : ℚ :=
    if quarters_accelerating ≥ 4 then
      100 + (if quarters_accelerating > 4 then 10 * (quarters_accelerating - 4) else 0)
    else if quarters_accelerating = 3 then 90
    else if quarters_accelerating = 2 then 75
    else if ttm_growth ≥ 30 then 60
    else 30
  cap_score base 100

/-- Forward-estimate sub-score of `tier3_growth` (lines 1234-1254). -/
def tier3_forward_score (d : ScoreInput) : ℚ :=
  let forward_est := d.analyst_forward_growth_pct.getD 0
  let current_growth := d.revenue_growth_ttm_pct.getD 0
  let base : ℚ :=
    if forward_est > 40 then 100
    else if forward_est ≥ 32 then 85
    else if forward_est ≥ 25 then 70
    else if forward_est ≥ 20 then 55
    else if forward_est ≥ 15 then 40
    else 20
  cap_score (base + (if forward_est > current_growth + 8 then 20 else 0)) 100

/-- TAM-and-penetration sub-score of `tier3_growth` (lines 1256-1269). -/
def tier3_tam_score (d : ScoreInput) : ℚ :=
  let tam_billions := d.tam_billions.getD 0
  let penetration := d.market_penetration_pct.getD 100
  if tam_billions > 75 ∧ penetration < 8 then 100
  else if tam_billions ≥ 50 ∧ penetration < 12 then 85
  else if tam_billions ≥ 30 ∧ penetration < 15 then 70
  else if tam_billions ≥ 15 ∧ penetration < 20 then 55
  else 35

/-- Growth-driver-diversity sub-score of `tier3_growth` (lines 1271-1285). -/
def tier3_drivers_score (d : ScoreInput) : ℚ :=
  let b := d.growth_driver_bonuses
  cap_score (50 + (if b.multiple_segments_25plus then 30 else 0)
    + (if b.geographic_expansion then 20 else 0)
    + (if b.new_product_launches then 20 else 0)
    + (if b.platform_effects then 20 else 0)
    + (if b.viral_network then 15 else 0)) 100

/-- Cyclicality sub-score of `tier3_growth` (lines 1287-1298). -/
def tier3_cyclical_score (d : ScoreInput) : ℚ :=
  match d.business_type.getD .software with
  | .software => 100
  | .saas => 100
  | .non_cyclical => 100
  | .early_mid_cycle_secular => 85
  | .mid_cycle => 70
  | .late_cycle => 45
  | _ => 25

def tier3_growth_weights : List ℚ := [0.28, 0.18, 0.18, 0.18, 0.12, 0.06]

/-- `tier3_growth` (lines 1194-1308). -/
def tier3_growth (d : ScoreInput) : ℚ :=
  round2 (dot tier3_growth_weights
    [tier3_rev_score d, tier3_accel_score d, tier3_forward_score d,
     tier3_tam_score d, tier3_drivers_score d, tier3_cyclical_score d])

/-- 6-month-return sub-score of `tier3_momentum` (lines 1315-1328). -/
def tier3_return_score (d : ScoreInput) : ℚ :=
  let return_6m := d.return_6m_pct.getD 0
  if return_6m > 70 then 100
  else if return_6m ≥ 50 then 90
  else if return_6m ≥ 30 then 75
  else if return_6m ≥ 15 then 55
  else if return_6m ≥ 0 then 40
  else 60

/-- Relative-strength sub-score of `tier3_momentum` (lines 1330-1351). -/
def tier3_rel_score (d : ScoreInput) : ℚ :=
  let rel_perf := d.return_6m_pct.getD 0 - d.iwm_return_6m_pct.getD 0
  let base : ℚ :=
    if rel_perf > 20 then 100
    else if rel_perf ≥ 12 then 80
    else if rel_perf ≥ 5 then 60
    else if rel_perf ≥ 0 then 45
    else 30
  let b := d.analyst_momentum_bonuses
  cap_score (base + (if b.upgrades_3plus then 15 else 0)
    + (if b.price_target_raises then 10 else 0)) 100

/-- Volume-and-sentiment sub-score of `tier3_momentum` (lines 1353-1370). -/
def tier3_sentiment_score (d : ScoreInput) : ℚ :=
  let volume_change_pct := d.volume_change_pct.getD 0
  let base : ℚ := 50
    + (if volume_change_pct > 50 then 25
       else if volume_change_pct ≥ 25 then 15
       else if volume_change_pct < -25 then -15 else 0)
    + (if d.sentiment_positive.getD false then 15 else 0)
    + (if d.analyst_momentum_bonuses.analyst_momentum then 15 else 0)
  cap_score base 100

def tier3_momentum_weights : List ℚ := [0.40, 0.35, 0.25]

/-- `tier3_momentum` (lines 1310-1377). -/
def tier3_momentum (d : ScoreInput) : ℚ :=
  round2 (dot tier3_momentum_weights
    [tier3_return_score d, tier3_rel_score d, tier3_sentiment_score d])

/-- Market-position sub-score of `tier3_scale_inflection` (lines 1385-1397). -/
def tier3_market_pos_score (d : ScoreInput) : ℚ :=
  let growth_delta := d.revenue_growth_ttm_pct.getD 0 - d.sector_avg_growth_pct.getD 0
  if growth_delta ≥ 10 then 100
  else if growth_delta ≥ 5 then 80
  else if growth_delta ≥ 0 then 60
  else 30

/-- Operating-leverage sub-score of `tier3_scale_inflection` (lines 1399-1410). -/
def tier3_op_lev_score (d : ScoreInput) : ℚ :=
  let margin_expansion_bps := d.margin_trend_bps_per_year.getD 0
  if margin_expansion_bps > 400 then 100
  else if margin_expansion_bps ≥ 250 then 85
  else if margin_expansion_bps ≥ 150 then 70
  else if margin_expansion_bps ≥ 100 then 55
  else 35

/-- Moat-formation sub-score of `tier3_scale_inflection` (lines 1412-1426). -/
def tier3_moat_score (d : ScoreInput) : ℚ :=
  let b := d.moat_formation_bonuses
  cap_score (50 + (if b.network_effects then 30 else 0)
    + (if b.switching_costs then 25 else 0)
    + (if b.scale_advantages then 20 else 0)
    + (if b.data_ip_moat then 20 else 0)
    + (if b.brand_emerging then 15 else 0)) 100

/-- Partnerships sub-score of `tier3_scale_inflection` (lines 1428-1440). -/
def tier3_partnership_score (d : ScoreInput) : ℚ :=
  let b := d.partnership_bonuses
  cap_score (50 + (if b.major_tech_partners then 30 else 0)
    + (if b.gov_enterprise then 25 else 0)
    + (if b.critical_integrations then 20 else 0)
    + (if b.ecosystem_role then 15 else 0)) 100

def tier3_si_weights : List ℚ := [0.30, 0.30, 0.25, 0.15]

/-- `tier3_scale_inflection` (lines 1379-1448). -/
def tier3_scale_inflection (d : ScoreInput) : ℚ :=
  round2 (dot tier3_si_weights
    [tier3_market_pos_score d, tier3_op_lev_score d, tier3_moat_score d,
     tier3_partnership_score d])

def tier3_composite_weights : List ℚ := [0.15, 0.22, 0.38, 0.15, 0.10]

/-- `calculate_tier3_composite` (lines 1450-1474). -/
def calculate_tier3_composite (d : ScoreInput) : ℚ × List (String × ℚ) :=
  let v_score := tier3_valuation d
  let q_score := tier3_quality d
  let g_score := tier3_growth d
  let m_score := tier3_momentum d
  let si_score := tier3_scale_inflection d
  (round2 (dot tier3_composite_weights [v_score, q_score, g_score, m_score, si_score]),
   [("Valuation", v_score), ("Quality", q_score), ("Growth", g_score),
    ("Momentum", m_score), ("Scale_Inflection", si_score)])

/-! ## Tier 4: Small-Cap Moonshots -/

/-- P/S sub-score of `tier4_valuation` (lines 1485-1510). -/
def tier4_ps_score (d : ScoreInput) : ℚ :=
  let ps := d.ps_ratio.getD 999
  let growth_rate := d.revenue_growth_ttm_pct.getD 0
  let base : ℚ :=
    if ps < 12 then 100
    else if ps < 20 then 85
    else if ps < 35 then 70
    else if ps < 50 then 50
    else if ps < 75 then 35
    else 25
  let s : ℚ :=
    if growth_rate > 75 ∧ 35 ≤ ps ∧ ps ≤ 50 then base + 35
    else if growth_rate > 100 ∧ 50 ≤ ps ∧ ps ≤ 75 then base + 30
    else if growth_rate > 100 ∧ ps > 75 then base + 25
    else base
  cap_score s 100

/-- Relative-valuation sub-score of `tier4_valuation` (lines 1512-1525).  The
missing `sector_median_ps` defaults to the stock's own P/S; the ratio to the
sector is guarded to 1.0 when the sector median is not positive. -/
def tier4_rel_val_score (d : ScoreInput) : ℚ :=
  let ps := d.ps_ratio.getD 999
  let sector_median_ps := d.sector_median_ps.getD ps
  let ratio_to_sector := if sector_median_ps > 0 then ps / sector_median_ps else 1
  if ratio_to_sector < 1 then 100
  else if ratio_to_sector ≤ 1 then 75
  else if ratio_to_sector ≤ 2 then 60
  else if ratio_to_sector ≤ 3 then 40
  else 20

/-- Insider-ownership sub-score of `tier4_valuation` (lines 1527-1549). -/
def tier4_insider_score (d : ScoreInput) : ℚ :=
  let pct := d.insider_ownership_pct.getD 0
  let base : ℚ :=
    if pct > 25 then 100
    else if pct ≥ 20 then 90
    else if pct ≥ 15 then 80
    else if pct ≥ 10 then 65
    else if pct ≥ 5 then 45
    else 30
  cap_score (base + (if d.insider_bonuses.recent_buying then 20 else 0)
    + (if pct > 30 then 20 else 0)) 100

def tier4_valuation_weights : List ℚ := [0.60, 0.25, 0.15]

/-- `tier4_valuation` (lines 1480-1556). -/
def tier4_valuation (d : ScoreInput) : ℚ :=
  round2 (dot tier4_valuation_weights
    [tier4_ps_score d, tier4_rel_val_score d, tier4_insider_score d])

/-- Gross-margin sub-score of `tier4_quality` (lines 1564-1577). -/
def tier4_gross_score (d : ScoreInput) : ℚ :=
  let gross_margin := d.gross_margin_pct.getD 0
  if gross_margin > 70 then 100
  else if gross_margin ≥ 60 then 85
  else if gross_margin ≥ 50 then 70
  else if gross_margin ≥ 40 then 50
  else if gross_margin ≥ 30 then 35
  else 20

/-- Revenue-quality sub-score of `tier4_quality` (lines 1579-1605): bonus and
penalty accumulation clamped into [0, 100]. -/
def tier4_rev_quality_score (d : ScoreInput) : ℚ :=
  let recurring_pct := d.recurring_revenue_pct.getD 0
  let nrr_pct := d.nrr_pct.getD 100
  let top_customer_pct := d.top_customer_concentration_pct.getD 100
  let top_3_customers_pct := d.top_3_concentration_pct.getD 100
  let s : ℚ := 50
    + (if recurring_pct > 70 then 30 else if recurring_pct ≥ 50 then 20 else 0)
    + (if nrr_pct > 110 then 20 else 0)
    + (if top_customer_pct < 10 then 15 else if top_customer_pct > 50 then -35 else 0)
    + (if top_3_customers_pct < 25 then 5 else if top_3_customers_pct > 30 then -20 else 0)
  cap_score (floor_score s 0) 100

/-- Unit-economics sub-score of `tier4_quality` (lines 1607-1626). -/
def tier4_unit_econ_score (d : ScoreInput) : ℚ :=
  let ltv_cac := d.ltv_cac_ratio.getD 0
  if ltv_cac > 3 then 100
  else if ltv_cac ≥ 2 then 75
  else if ltv_cac ≥ 1 then 40
  else
    if d.cac_payback_months.getD 999 < 12 then 85
    else if d.gross_margin_expanding.getD false then 70
    else if d.cohorts_improving.getD false then 60
    else 40

/-- Path-to-profitability sub-score of `tier4_quality` (lines 1628-1653). -/
def tier4_profit_path_score (d : ScoreInput) : ℚ :=
  let path_months := d.path_to_profit_months.getD 999
  let base : ℚ :=
    if d.is_profitable.getD false then 100
    else if path_months < 12 then 80
    else if path_months < 24 then 60
    else if path_months < 36 then 40
    else if path_months < 48 then 25
    else 15
  let p := d.profit_path_penalties
  floor_score (base - (if p.burn_accelerating then 25 else 0)
    - (if p.no_guidance then 15 else 0)
    - (if p.frequent_raises then 10 else 0)) 0

def tier4_quality_weights : List ℚ := [0.30, 0.30, 0.20, 0.20]

/-- `tier4_quality` (lines 1558-1661). -/
def tier4_quality (d : ScoreInput) : ℚ :=
  round2 (dot tier4_quality_weights
    [tier4_gross_score d, tier4_rev_quality_score d, tier4_unit_econ_score d,
     tier4_profit_path_score d])

/-- Revenue-growth sub-score of `tier4_growth` (lines 1670-1685). -/
def tier4_rev_score (d : ScoreInput) : ℚ :=
  let ttm_growth := d.revenue_growth_ttm_pct.getD 0
  if ttm_growth > 100 then 100
  else if ttm_growth ≥ 75 then 95
  else if ttm_growth ≥ 55 then 85
  else if ttm_growth ≥ 40 then 70
  else if ttm_growth ≥ 30 then 50
  else if ttm_growth ≥ 20 then 30
  else 15

/-- Growth-consistency sub-score of `tier4_growth` (lines 1687-1700): 10
extra points per quarter of acceleration beyond 5, capped at 100. -/
def tier4_consist_score (d : ScoreInput) : ℚ :=
  let quarters_accel := d.quarters_accelerating.getD 0
  let ttm_growth := d.revenue_growth_ttm_pct.getD 0
  let base : ℚ :=
    if quarters_accel ≥ 5 then 100 + 10 * (quarters_accel - 5)
    else if quarters_accel = 4 then 90
    else if quarters_accel = 3 then 80
    else if ttm_growth ≥ 40 then 70
    else 30
  cap_score base 100

/-- TAM-size sub-score of `tier4_growth` (lines 1702-1715). -/
def tier4_tam_score (d : ScoreInput) : ℚ :=
  let tam_billions := d.tam_billions.getD 0
  if tam_billions > 150 then 100
  else if tam_billions ≥ 100 then 90
  else if tam_billions ≥ 50 then 75
  else if tam_billions ≥ 25 then 55
  else if tam_billions ≥ 10 then 35
  else 20

/-- Market-penetration sub-score of `tier4_growth` (lines 1717-1728). -/
def tier4_penetration_score (d : ScoreInput) : ℚ :=
  let penetration_pct := d.market_penetration_pct.getD 100
  if penetration_pct < 3 then 100
  else if penetration_pct < 5 then 90
  else if penetration_pct < 10 then 75
  else if penetration_pct < 15 then 55
  else 35

/-- Growth-driver-strength sub-score of `tier4_growth` (lines 1730-1744). -/
def tier4_drivers_score (d : ScoreInput) : ℚ :=
  let b := d.growth_driver_bonuses
  cap_score (50 + (if b.network_effects then 25 else 0)
    + (if b.viral_growth_50plus then 25 else 0)
    + (if b.platform_forming then 20 else 0)
    + (if b.multiple_streams_35plus then 20 else 0)
    + (if b.gov_enterprise_accelerating then 20 else 0)) 100

/-- Forward-estimate sub-score of `tier4_growth` (lines 1746-1766). -/
def tier4_forward_score (d : ScoreInput) : ℚ :=
  let forward_est := d.analyst_forward_growth_pct.getD 0
  let current_growth := d.revenue_growth_ttm_pct.getD 0
  let base : ℚ :=
    if forward_est > 60 then 100
    else if forward_est ≥ 50 then 90
    else if forward_est ≥ 40 then 80
    else if forward_est ≥ 30 then 65
    else if forward_est ≥ 20 then 45
    else 25
  cap_score (base + (if forward_est > current_growth + 12 then 20 else 0)) 100

/-- Catalyst-pipeline sub-score of `tier4_growth` (lines 1768-1782). -/
def tier4_catalyst_score (d : ScoreInput) : ℚ :=
  let b := d.catalyst_bonuses
  cap_score (50 + (if b.major_launch_6mo then 30 else 0)
    + (if b.market_expansion then 25 else 0)
    + (if b.partnership_expected then 25 else 0)
    + (if b.regulatory_milestone then 30 else 0)
    + (if b.index_inclusion then 20 else 0)) 100

def tier4_growth_weights : List ℚ := [0.28, 0.15, 0.15, 0.10, 0.15, 0.12, 0.05]

/-- `tier4_growth` (lines 1663-1793). -/
def tier4_growth (d : ScoreInput) : ℚ :=
  round2 (dot tier4_growth_weights
    [tier4_rev_score d, tier4_consist_score d, tier4_tam_score d,
     tier4_penetration_score d, tier4_drivers_score d, tier4_forward_score d,
     tier4_catalyst_score d])

/-- 6-month-return sub-score of `tier4_momentum` (lines 1801-1816). -/
def tier4_return_score (d : ScoreInput) : ℚ :=
  let return_6m := d.return_6m_pct.getD 0
  if return_6m > 100 then 100
  else if return_6m ≥ 70 then 95
  else if return_6m ≥ 50 then 85
  else if return_6m ≥ 30 then 70
  else if return_6m ≥ 15 then 50
  else if return_6m ≥ 0 then 35
  else 60

/-- Relative-strength sub-score of `tier4_momentum` (lines 1818-1831). -/
def tier4_rel_score (d : ScoreInput) : ℚ :=
  let rel_perf := d.return_6m_pct.getD 0 - d.iwo_return_6m_pct.getD 0
  if rel_perf > 30 then 100
  else if rel_perf ≥ 20 then 85
  else if rel_perf ≥ 10 then 65
  else if rel_perf ≥ 0 then 45
  else 25

/-- Social-sentiment sub-score of `tier4_momentum` (lines 1833-1854), with
bonuses and penalties clamped into [0, 100]. -/
def tier4_sentiment_score (d : ScoreInput) : ℚ :=
  let b := d.sentiment_bonuses
  let p := d.sentiment_penalties
  let s : ℚ := 50 + (if b.rising_mentions_bullish then 25 else 0)
    + (if b.positive_reddit then 20 else 0)
    + (if b.analyst_upgrades_3plus then 25 else 0)
    + (if b.target_increases then 20 else 0)
    + (if b.positive_media then 15 else 0)
    - (if p.negative_trending then 25 else 0)
    - (if p.unsustainable_meme then 20 else 0)
  cap_score (floor_score s 0) 100

/-- Volume-surge sub-score of `tier4_momentum` (lines 1856-1868). -/
def tier4_volume_score (d : ScoreInput) : ℚ :=
  let v := d.volume_change_pct.getD 0
  if v > 75 then 100
  else if v ≥ 50 then 85
  else if v ≥ 25 then 65
  else if |v| ≤ 25 then 50
  else 30

def tier4_momentum_weights : List ℚ := [0.40, 0.30, 0.20, 0.10]

/-- `tier4_momentum` (lines 1795-1876). -/
def tier4_momentum (d : ScoreInput) : ℚ :=
  round2 (dot tier4_momentum_weights
    [tier4_return_score d, tier4_rel_score d, tier4_sentiment_score d,
     tier4_volume_score d])

/-- Market-disruption sub-score of `tier4_disruption` (lines 1884-1896). -/
def tier4_disruption_sub_score (d : ScoreInput) : ℚ :=
  match d.disruption_type.getD .incremental with
  | .attacking_100b_plus => 100
  | .creating_new_category => 95
  | .significant_share_gains => 85
  | .niche_10_50b => 70
  | _ => 50

/-- Technology-moat sub-score of `tier4_disruption` (lines 1898-1912). -/
def tier4_tech_moat_score (d : ScoreInput) : ℚ :=
  let b := d.tech_moat_bonuses
  cap_score (50 + (if b.proprietary_ai_ml then 30 else 0)
    + (if b.strong_patents then 25 else 0)
    + (if b.unique_data_assets then 25 else 0)
    + (if b.first_mover_scale then 20 else 0)
    + (if b.unique_supply_chain then 25 else 0)) 100

/-- Competitive-dynamics sub-score of `tier4_disruption` (lines 1914-1926). -/
def tier4_comp_dyn_score (d : ScoreInput) : ℚ :=
  match d.market_structure.getD .highly_competitive with
  | .winner_take_most => 100
  | .oligopoly_forming => 80
  | .crowded_differentiated => 60
  | .highly_competitive => 40
  | _ => 20

/-- Catalyst-pipeline sub-score of `tier4_disruption` (lines 1928-1942). -/
def tier4_d_catalyst_score (d : ScoreInput) : ℚ :=
  let b := d.catalyst_bonuses
  cap_score (50 + (if b.major_launch_6mo then 30 else 0)
    + (if b.partnership_expected then 25 else 0)
    + (if b.market_expansion then 25 else 0)
    + (if b.regulatory_approval then 30 else 0)
    + (if b.acquisition_target then 20 else 0)) 100

def tier4_disruption_weights : List ℚ := [0.35, 0.25, 0.25, 0.15]

/-- `tier4_disruption` (lines 1878-1950). -/
def tier4_disruption (d : ScoreInput) : ℚ :=
  round2 (dot tier4_disruption_weights
    [tier4_disruption_sub_score d, tier4_tech_moat_score d, tier4_comp_dyn_score d,
     tier4_d_catalyst_score d])

def tier4_composite_weights : List ℚ := [0.10, 0.15, 0.40, 0.15, 0.20]

/-- `calculate_tier4_composite` (lines 1952-1976). -/
def calculate_tier4_composite (d : ScoreInput) : ℚ × List (String × ℚ) :=
  let v_score := tier4_valuation d
  let q_score := tier4_quality d
  let g_score := tier4_growth d
  let m_score := tier4_momentum d
  let d_score := tier4_disruption d
  (round2 (dot tier4_composite_weights [v_score, q_score, g_score, m_score, d_score]),
   [("Valuation", v_score), ("Quality", q_score), ("Growth", g_score),
    ("Momentum", m_score), ("Disruption", d_score)])

/-! ## Main entry points -/

/-- The `name` / `min_score` tier metadata of `TIER_DEFINITIONS` (lines 17-23);
`min_cap` / `max_cap` are never read by the engine and are not modelled
(`max_cap` is a float infinity). -/
structure TierDef where
  name : String
  min_score : ℚ

/-- `TIER_DEFINITIONS` (lines 17-23); a key outside 1-4 would raise in
Python and is never looked up by `calculate_score`. -/
def TIER_DEFINITIONS : ℕ → TierDef
  | 1 => ⟨"Mega-Cap Core", 60⟩
  | 2 => ⟨"Large-Cap Growth", 65⟩
  | 3 => ⟨"Mid-Cap Emerging", 67⟩
  | 4 => ⟨"Small-Cap Moonshots", 70⟩
  | _ => ⟨"", 0⟩

/-- `TIER_WEIGHTS` (lines 26-31): named composite weights by tier. -/
def TIER_WEIGHTS : ℕ → List (String × ℚ)
  | 1 => [("V", 0.20), ("Q", 0.35), ("G", 0.25), ("M", 0.10), ("FH", 0.10)]
  | 2 => [("V", 0.18), ("Q", 0.28), ("G", 0.32), ("M", 0.12), ("SM", 0.10)]
  | 3 => [("V", 0.15), ("Q", 0.22), ("G", 0.38), ("M", 0.15), ("SI", 0.10)]
  | 4 => [("V", 0.10), ("Q", 0.15), ("G", 0.40), ("M", 0.15), ("D", 0.20)]
  | _ => []

/-- `base_allocations` lookup table of `calculate_position_size` (line 2040);
`none` models the Python `KeyError` on a tier outside 1-4. -/
def base_allocations : ℕ → Option ℚ
  | 1 => some 10
  | 2 => some 7
  | 3 => some 5
  | 4 => some 3
  | _ => none

/-- `vol_multipliers` lookup table of `calculate_position_size` (line 2041). -/
def vol_multipliers : ℕ → Option ℚ
  | 1 => some 0.75
  | 2 => some 1.0
  | 3 => some 1.3
  | 4 => some 1.5
  | _ => none

/-- `calculate_position_size` (lines 2035-2052).  `none` models a Python
exception: a `KeyError` on a tier outside 1-4, or the `ZeroDivisionError`
raised when the volatility adjustment `1 + (beta - 1) * vol_mult` is zero. -/
def calculate_position_size (tier : ℕ) (score beta : ℚ) : Option ℚ :=
  match base_allocations tier, vol_multipliers tier with
  | some base, some vol_mult =>
    let vol_adjustment := 1 + (beta - 1) * vol_mult
    if vol_adjustment = 0 then none
    else some (((round (base * (score / 100) / vol_adjustment * 2) : ℤ) : ℚ) / 2)
  | _, _ => none

/-- The rating ladder of `calculate_score` (lines 2000-2014). -/
def rating_of (composite : ℚ) : String :=
  if composite ≥ 80 then "Strong Buy"
  else if composite ≥ 70 then "Buy"
  else if composite ≥ 60 then "Hold"
  else if composite ≥ 50 then "Reduce"
  else "Sell"

/-- The result record returned by `calculate_score` (lines 2020-2033). -/
structure ScoreResult where
  ticker : String
  tier : ℕ
  tier_name : String
  market_cap_billions : ℚ
  composite_score : ℚ
  rating : String
  stars : String
  position_size_pct : Option ℚ
  min_score_for_tier : ℚ
  score_buffer : ℚ
  components : List (String × ℚ)
  beta : ℚ

/-- `calculate_score` (lines 1982-2033): the single entry point. -/
def calculate_score (ticker : String) (d : ScoreInput) : ScoreResult :=
  let market_cap_billions := d.market_cap_billions.getD 0
  let tier := determine_tier market_cap_billions
  let cc :=
    if tier = 1 then calculate_tier1_composite d
    else if tier = 2 then calculate_tier2_composite d
    else if tier = 3 then calculate_tier3_composite d
    else calculate_tier4_composite d
  let composite := cc.1
  let beta := d.beta.getD 1
  { ticker := ticker
    tier := tier
    tier_name := (TIER_DEFINITIONS tier).name
    market_cap_billions := market_cap_billions
    composite_score := composite
    rating := rating_of composite
    stars := ""
    position_size_pct := calculate_position_size tier composite beta
    min_score_for_tier := (TIER_DEFINITIONS tier).min_score
    score_buffer := round2 (composite - (TIER_DEFINITIONS tier).min_score)
    components := cc.2
    beta := beta }

/-! ## Inputs and spec-side definitions used by the theorems -/

/-- The Tier-1 end-to-end scenario input of the specification (also the
`googl_data` example of scoring_engine_4tier.py lines 2060-2097; the claim
omits the empty `future_growth_bonuses` dict, which defaults to no flags). -/
def googl_data : ScoreInput := {
  market_cap_billions := some 1800
  pe_ratio := some 22
  historical_pe_avg := some 25
  fcf_yield_pct := some 4.17
  peg_ratio := some 1.4
  roic_pct := some 24.08
  operating_margin_pct := some 32.08
  margin_trend_bps_per_year := some 150
  moat_bonuses := { network_effects := true, economies_of_scale := true }
  earnings_beat_rate_pct := some 83.3
  mgmt_bonuses := { consistent_buybacks := true }
  cash_conversion_ratio := some 1.25
  revenue_cagr_3yr_pct := some 11.86
  revenue_growth_recent_yoy_pct := some 16
  eps_cagr_3yr_pct := some 15
  tam_billions := some 500
  market_share_pct := some 15
  analyst_forward_growth_pct := some 12
  return_12m_pct := some 35.2
  spy_return_12m_pct := some 25
  price := some 140
  ma_50 := some 135
  ma_200 := some 125
  net_cash_billions := some 100
  fcf_billions := some 75
  capital_allocation_bonuses := { buybacks_rnd_gt_10pct := true, value_creating_ma := true }
  beta := some 1.1 }

/-- Modelled from the spec (section 4.7): `position = (tierBaseAllocation ×
score/100) / (1 + (beta − 1) × tierVolatilityMultiplier)`, rounded to the
nearest 0.5 percentage point, with no tier-maximum cap. -/
def position_size_spec (base mult score beta : ℚ) : ℚ :=
  ((round (base * (score / 100) / (1 + (beta - 1) * mult) * 2) : ℤ) : ℚ) / 2

lemma round_eval (n : ℤ) {x : ℚ} (h1 : (n : ℚ) ≤ x + 1 / 2) (h2 : x + 1 / 2 < (n : ℚ) + 1) :
    round x = n := by
  rw [round_eq]
  exact Int.floor_eq_iff.mpr ⟨h1, h2⟩

lemma round2_eval (n : ℤ) {x y : ℚ} (h1 : (n : ℚ) ≤ x * 100 + 1 / 2)
    (h2 : x * 100 + 1 / 2 < (n : ℚ) + 1) (h3 : (n : ℚ) / 100 = y) : round2 x = y := by
  unfold round2
  rw [round_eval n h1 h2, h3]

lemma round2_bounds {x : ℚ} (h0 : 0 ≤ x) (h1 : x ≤ 100) :
    0 ≤ round2 x ∧ round2 x ≤ 100 := by
  unfold round2
  have l1 : (0 : ℤ) ≤ round (x * 100) := by
    rw [round_eq]
    refine Int.le_floor.mpr ?_
    push_cast
    linarith
  have l2 : round (x * 100) ≤ 10000 := by
    rw [round_eq]
    refine Int.floor_le_iff.mpr ?_
    push_cast
    linarith
  constructor
  · positivity
  · rw [div_le_iff₀ (by norm_num)]
    calc ((round (x * 100) : ℤ) : ℚ) ≤ ((10000 : ℤ) : ℚ) := by exact_mod_cast l2
    _ = 100 * 100 := by norm_num

lemma bracket_score_mem (value : ℚ) (l : List (ℚ × ℚ)) (h : l ≠ []) :
    bracket_score value l ∈ l.map Prod.snd := by
  induction l with
  | nil => exact absurd rfl h
  | cons p rest ih =>
    obtain ⟨t, s⟩ := p
    by_cases hv : value ≥ t
    · simp [bracket_score, hv]
    · cases rest with
      | nil => simp [bracket_score, hv]
      | cons q rest2 =>
        have h2 : bracket_score value ((t, s) :: q :: rest2) = bracket_score value (q :: rest2) := by
          simp [bracket_score, hv]
        rw [h2]
        exact List.mem_cons_of_mem _ (ih (by simp))

lemma bracket_score_bounds {lo hi : ℚ} (value : ℚ) (l : List (ℚ × ℚ)) (h : l ≠ [])
    (hb : ∀ p ∈ l, lo ≤ p.2 ∧ p.2 ≤ hi) :
    lo ≤ bracket_score value l ∧ bracket_score value l ≤ hi := by
  have hm := bracket_score_mem value l h
  simp only [List.mem_map] at hm
  obtain ⟨p, hp, he⟩ := hm
  rw [← he]
  exact hb p hp

/-! ## Evaluation of the Tier-1 scenario -/

lemma googl_valuation : tier1_valuation googl_data = 88.75 := by
  unfold tier1_valuation
  refine round2_eval 8875 ?_ ?_ ?_ <;>
    norm_num [googl_data, dot, tier1_valuation_weights, tier1_pe_score, tier1_fcf_score,
      tier1_peg_score, bracket_score, tier1_fcf_brackets, cap_score, floor_score]

lemma googl_quality : tier1_quality googl_data = 94.30 := by
  unfold tier1_quality
  refine round2_eval 9430 ?_ ?_ ?_ <;>
    norm_num [googl_data, dot, tier1_quality_weights, tier1_roic_score, tier1_op_margin_score,
      tier1_margin_trend_score, tier1_moat_score, tier1_mgmt_score, tier1_cash_conv_score,
      bracket_score, tier1_roic_brackets, tier1_op_margin_brackets, tier1_margin_trend_brackets,
      tier1_cash_brackets, cap_score, floor_score]

lemma googl_growth : tier1_growth googl_data = 76.75 := by
  unfold tier1_growth
  refine round2_eval 7675 ?_ ?_ ?_ <;>
    norm_num [googl_data, dot, tier1_growth_weights, tier1_rev_growth_score,
      tier1_consistency_score, tier1_eps_score, tier1_future_score, tier1_analyst_score,
      bracket_score, tier1_rev_brackets, tier1_eps_brackets, tier1_analyst_brackets,
      cap_score, floor_score]

lemma googl_momentum : tier1_momentum googl_data = 100 := by
  unfold tier1_momentum
  refine round2_eval 10000 ?_ ?_ ?_ <;>
    norm_num [googl_data, dot, tier1_momentum_weights, tier1_return_score, tier1_rel_score,
      technical_setup_score, bracket_score, tier1_return_brackets, tier1_rel_brackets,
      cap_score, floor_score, List.dropLast]

lemma googl_fh : tier1_financial_health googl_data = 99.50 := by
  unfold tier1_financial_health
  refine round2_eval 9950 ?_ ?_ ?_ <;>
    norm_num [googl_data, dot, tier1_fh_weights, tier1_net_cash_score, tier1_fh_fcf_score,
      tier1_cap_alloc_score, bracket_score, tier1_fh_fcf_brackets, cap_score, floor_score]

lemma googl_composite : (calculate_tier1_composite googl_data).1 = 89.89 ∧
    (calculate_tier1_composite googl_data).2 =
      [("Valuation", 88.75), ("Quality", 94.30), ("Growth", 76.75),
       ("Momentum", 100), ("Financial_Health", 99.50)] := by
  unfold calculate_tier1_composite
  rw [googl_valuation, googl_quality, googl_growth, googl_momentum, googl_fh]
  constructor
  · refine round2_eval 8989 ?_ ?_ ?_ <;> norm_num [dot, tier1_composite_weights]
  · norm_num

/-- C1: On the Tier-1 end-to-end scenario input (market cap 1800B, P/E 22
against a historical average of 25, FCF yield 4.17, PEG 1.4, etc.),
`calculate_score` assigns tier 1, produces component scores
Valuation = 88.75, Quality = 94.30, Growth = 76.75, Momentum = 100.00 and
Financial_Health = 99.50, a composite equal to 89.89 (hence within 0.01 of
89.89), and the rating "Strong Buy". -/
theorem tier1_end_to_end_scenario :
    (calculate_score "GOOGL" googl_data).tier = 1 ∧
    (calculate_score "GOOGL" googl_data).components =
      [("Valuation", 88.75), ("Quality", 94.30), ("Growth", 76.75),
       ("Momentum", 100), ("Financial_Health", 99.50)] ∧
    (calculate_score "GOOGL" googl_data).composite_score = 89.89 ∧
    |(calculate_score "GOOGL" googl_data).composite_score - 89.89| ≤ 0.01 ∧
    (calculate_score "GOOGL" googl_data).rating = "Strong Buy" := by
  have ht : determine_tier (googl_data.market_cap_billions.getD 0) = 1 := by
    norm_num [googl_data, determine_tier]
  simp only [calculate_score, ht, if_true, reduceIte]
  rw [googl_composite.1, googl_composite.2]
  norm_num [rating_of]

/-- C4: `determine_tier` classifies every market cap by half-open,
lower-bound-inclusive intervals — tier 1 iff cap ≥ 200, tier 2 iff
50 ≤ cap < 200, tier 3 iff 10 ≤ cap < 50, tier 4 iff cap < 10 — and in
particular maps 200.0 to 1, 199.99 to 2, 50.0 to 2 and 9.999 to 4. -/
theorem determine_tier_intervals (cap : ℚ) :
    (determine_tier cap = 1 ↔ 200 ≤ cap) ∧
    (determine_tier cap = 2 ↔ 50 ≤ cap ∧ cap < 200) ∧
    (determine_tier cap = 3 ↔ 10 ≤ cap ∧ cap < 50) ∧
    (determine_tier cap = 4 ↔ cap < 10) ∧
    determine_tier 200 = 1 ∧ determine_tier 199.99 = 2 ∧
    determine_tier 50 = 2 ∧ determine_tier 9.999 = 4 := by
  refine ⟨?_, ?_, ?_, ?_, by norm_num [determine_tier], by norm_num [determine_tier],
    by norm_num [determine_tier], by norm_num [determine_tier]⟩ <;>
    unfold determine_tier <;> split_ifs with h1 h2 h3 <;> norm_num <;>
    first
      | (exact h1)
      | (constructor <;> linarith)
      | (rintro ⟨ha, hb⟩ <;> linarith)
      | (intro hc; linarith)
      | linarith

/-- C3: for every tier, `calculate_position_size` computes exactly the
specification formula `(base × score/100) / (1 + (beta − 1) × mult)` rounded
to the nearest 0.5 point — base 10/7/5/3 and mult 0.75/1.0/1.3/1.5 for tiers
1/2/3/4 — with no tier-maximum cap, whenever the volatility adjustment is
nonzero; in particular tier 1 with score 89.89 and beta 1.1 yields 8.5. -/
theorem position_size_matches_spec :
    (∀ score beta : ℚ, 1 + (beta - 1) * 0.75 ≠ 0 →
      calculate_position_size 1 score beta = some (position_size_spec 10 0.75 score beta)) ∧
    (∀ score beta : ℚ, 1 + (beta - 1) * 1.0 ≠ 0 →
      calculate_position_size 2 score beta = some (position_size_spec 7 1.0 score beta)) ∧
    (∀ score beta : ℚ, 1 + (beta - 1) * 1.3 ≠ 0 →
      calculate_position_size 3 score beta = some (position_size_spec 5 1.3 score beta)) ∧
    (∀ score beta : ℚ, 1 + (beta - 1) * 1.5 ≠ 0 →
      calculate_position_size 4 score beta = some (position_size_spec 3 1.5 score beta)) ∧
    calculate_position_size 1 89.89 1.1 = some 8.5 := by
  refine ⟨?_, ?_, ?_, ?_, ?_⟩
  · intro s b h
    simp only [calculate_position_size, base_allocations, vol_multipliers, if_neg h]
    rfl
  · intro s b h
    simp only [calculate_position_size, base_allocations, vol_multipliers, if_neg h]
    rfl
  · intro s b h
    simp only [calculate_position_size, base_allocations, vol_multipliers, if_neg h]
    rfl
  · intro s b h
    simp only [calculate_position_size, base_allocations, vol_multipliers, if_neg h]
    rfl
  · simp only [calculate_position_size, base_allocations, vol_multipliers]
    norm_num
    rw [round_eval 17 (by norm_num) (by norm_num)]
    norm_num

/-- Witness for C3: the tier-2 branch applied at score 80, beta 1. -/
theorem position_size_matches_spec_witness :
    calculate_position_size 2 80 1 = some (position_size_spec 7 1.0 80 1) :=
  position_size_matches_spec.2.1 80 1 (by norm_num)

/-- C7 (failing input): `calculate_position_size` is not total — at tier 2
with beta 0 the volatility adjustment `1 + (0 - 1) * 1.0` is zero and the
Python code raises `ZeroDivisionError` (modelled here as `none`) instead of
returning a number. -/
theorem position_size_div_by_zero :
    calculate_position_size 2 50 0 = none := by
  simp only [calculate_position_size, base_allocations, vol_multipliers]
  norm_num

/-- C10: whenever `sector_median_ps` is absent, the relative-valuation
sub-score of both `tier3_valuation` and `tier4_valuation` is exactly 75,
regardless of every other field: the sector median defaults to the stock's
own P/S, the strict `<` branch scoring 100 cannot fire, and the `≤` branch
scoring 75 always does. -/
theorem rel_val_default_75 (d : ScoreInput) (h : d.sector_median_ps = none) :
    tier3_rel_val_score d = 75 ∧ tier4_rel_val_score d = 75 := by
  constructor
  · unfold tier3_rel_val_score
    rw [h]
    simp
  · unfold tier4_rel_val_score
    rw [h]
    simp only [Option.getD_none]
    by_cases hp : d.ps_ratio.getD 999 > 0
    · rw [if_pos hp, div_self (ne_of_gt hp)]
      norm_num
    · rw [if_neg hp]
      norm_num

/-- Witness for C10: the empty input record. -/
theorem rel_val_default_75_witness :
    tier3_rel_val_score {} = 75 ∧ tier4_rel_val_score {} = 75 :=
  rel_val_default_75 {} rfl

/-! ## Range bounds for every sub-score -/

lemma cap_bounds {s : ℚ} (h : 0 ≤ s) : 0 ≤ cap_score s 100 ∧ cap_score s 100 ≤ 100 :=
  ⟨le_min h (by norm_num), min_le_right _ _⟩

lemma floor_bounds {s : ℚ} (h : s ≤ 100) : 0 ≤ floor_score s 0 ∧ floor_score s 0 ≤ 100 :=
  ⟨le_max_right _ _, max_le h (by norm_num)⟩

lemma cap_floor_bounds (s : ℚ) :
    0 ≤ cap_score (floor_score s 0) 100 ∧ cap_score (floor_score s 0) 100 ≤ 100 :=
  ⟨le_min (le_max_right _ _) (by norm_num), min_le_right _ _⟩

lemma tier1_pe_score_b (d : ScoreInput) : 0 ≤ tier1_pe_score d ∧ tier1_pe_score d ≤ 100 := by
  simp only [tier1_pe_score]
  split_ifs
  · exact cap_floor_bounds _
  · norm_num

lemma tier1_fcf_score_b (d : ScoreInput) : 0 ≤ tier1_fcf_score d ∧ tier1_fcf_score d ≤ 100 := by
  unfold tier1_fcf_score
  exact bracket_score_bounds _ _ (by simp [tier1_fcf_brackets])
    (by norm_num [tier1_fcf_brackets])

lemma tier1_peg_score_b (d : ScoreInput) : 0 ≤ tier1_peg_score d ∧ tier1_peg_score d ≤ 100 := by
  simp only [tier1_peg_score]
  split_ifs <;> norm_num

lemma tier1_roic_score_b (d : ScoreInput) : 0 ≤ tier1_roic_score d ∧ tier1_roic_score d ≤ 100 := by
  unfold tier1_roic_score
  exact bracket_score_bounds _ _ (by simp [tier1_roic_brackets])
    (by norm_num [tier1_roic_brackets])

lemma tier1_op_margin_score_b (d : ScoreInput) :
    0 ≤ tier1_op_margin_score d ∧ tier1_op_margin_score d ≤ 100 := by
  unfold tier1_op_margin_score
  exact bracket_score_bounds _ _ (by simp [tier1_op_margin_brackets])
    (by norm_num [tier1_op_margin_brackets])

lemma tier1_margin_trend_score_b (d : ScoreInput) :
    0 ≤ tier1_margin_trend_score d ∧ tier1_margin_trend_score d ≤ 100 := by
  unfold tier1_margin_trend_score
  exact bracket_score_bounds _ _ (by simp [tier1_margin_trend_brackets])
    (by norm_num [tier1_margin_trend_brackets])

lemma tier1_moat_score_b (d : ScoreInput) : 0 ≤ tier1_moat_score d ∧ tier1_moat_score d ≤ 100 := by
  simp only [tier1_moat_score]
  exact cap_bounds (by split_ifs <;> norm_num)

lemma tier1_mgmt_score_b (d : ScoreInput) : 0 ≤ tier1_mgmt_score d ∧ tier1_mgmt_score d ≤ 100 := by
  simp only [tier1_mgmt_score]
  exact cap_bounds (by split_ifs <;> norm_num)

lemma tier1_cash_conv_score_b (d : ScoreInput) :
    0 ≤ tier1_cash_conv_score d ∧ tier1_cash_conv_score d ≤ 100 := by
  unfold tier1_cash_conv_score
  exact bracket_score_bounds _ _ (by simp [tier1_cash_brackets])
    (by norm_num [tier1_cash_brackets])

lemma tier1_rev_growth_score_b (d : ScoreInput) :
    0 ≤ tier1_rev_growth_score d ∧ tier1_rev_growth_score d ≤ 100 := by
  unfold tier1_rev_growth_score
  exact bracket_score_bounds _ _ (by simp [tier1_rev_brackets])
    (by norm_num [tier1_rev_brackets])

lemma tier1_consistency_score_b (d : ScoreInput) :
    0 ≤ tier1_consistency_score d ∧ tier1_consistency_score d ≤ 100 := by
  simp only [tier1_consistency_score]
  exact cap_bounds (by split_ifs <;> norm_num)

lemma tier1_eps_score_b (d : ScoreInput) : 0 ≤ tier1_eps_score d ∧ tier1_eps_score d ≤ 100 := by
  simp only [tier1_eps_score]
  exact cap_floor_bounds _

lemma tier1_future_score_b (d : ScoreInput) :
    0 ≤ tier1_future_score d ∧ tier1_future_score d ≤ 100 := by
  simp only [tier1_future_score]
  exact cap_bounds (by split_ifs <;> norm_num)

lemma tier1_analyst_score_b (d : ScoreInput) :
    0 ≤ tier1_analyst_score d ∧ tier1_analyst_score d ≤ 100 := by
  unfold tier1_analyst_score
  exact bracket_score_bounds _ _ (by simp [tier1_analyst_brackets])
    (by norm_num [tier1_analyst_brackets])

lemma tier1_return_score_b (d : ScoreInput) :
    0 ≤ tier1_return_score d ∧ tier1_return_score d ≤ 100 := by
  simp only [tier1_return_score]
  split_ifs
  · norm_num
  · exact bracket_score_bounds _ _ (by simp [tier1_return_brackets, List.dropLast])
      (by norm_num [tier1_return_brackets, List.dropLast])

lemma tier1_rel_score_b (d : ScoreInput) : 0 ≤ tier1_rel_score d ∧ tier1_rel_score d ≤ 100 := by
  simp only [tier1_rel_score]
  exact bracket_score_bounds _ _ (by simp [tier1_rel_brackets])
    (by norm_num [tier1_rel_brackets])

lemma technical_setup_score_b (d : ScoreInput) :
    0 ≤ technical_setup_score d ∧ technical_setup_score d ≤ 100 := by
  simp only [technical_setup_score]
  split_ifs <;> norm_num

lemma tier1_net_cash_score_b (d : ScoreInput) :
    0 ≤ tier1_net_cash_score d ∧ tier1_net_cash_score d ≤ 100 := by
  simp only [tier1_net_cash_score]
  split_ifs <;> norm_num

lemma tier1_fh_fcf_score_b (d : ScoreInput) :
    0 ≤ tier1_fh_fcf_score d ∧ tier1_fh_fcf_score d ≤ 100 := by
  unfold tier1_fh_fcf_score
  exact bracket_score_bounds _ _ (by simp [tier1_fh_fcf_brackets])
    (by norm_num [tier1_fh_fcf_brackets])

lemma tier1_cap_alloc_score_b (d : ScoreInput) :
    0 ≤ tier1_cap_alloc_score d ∧ tier1_cap_alloc_score d ≤ 100 := by
  simp only [tier1_cap_alloc_score]
  exact cap_bounds (by split_ifs <;> norm_num)

lemma tier2_pe_ps_score_b (d : ScoreInput) :
    0 ≤ tier2_pe_ps_score d ∧ tier2_pe_ps_score d ≤ 100 := by
  simp only [tier2_pe_ps_score]
  split_ifs <;> norm_num [cap_score, min_def] <;> split_ifs <;> norm_num

lemma tier2_peg_score_b (d : ScoreInput) : 0 ≤ tier2_peg_score d ∧ tier2_peg_score d ≤ 100 := by
  simp only [tier2_peg_score]
  split_ifs <;> norm_num

lemma tier2_rel_val_score_b (d : ScoreInput) :
    0 ≤ tier2_rel_val_score d ∧ tier2_rel_val_score d ≤ 100 := by
  simp only [tier2_rel_val_score]
  split_ifs <;> norm_num

lemma tier2_rev_scale_score_b (d : ScoreInput) :
    0 ≤ tier2_rev_scale_score d ∧ tier2_rev_scale_score d ≤ 100 := by
  unfold tier2_rev_scale_score
  exact bracket_score_bounds _ _ (by simp [tier2_rev_scale_brackets])
    (by norm_num [tier2_rev_scale_brackets])

lemma tier2_profit_score_b (d : ScoreInput) :
    0 ≤ tier2_profit_score d ∧ tier2_profit_score d ≤ 100 := by
  simp only [tier2_profit_score]
  split_ifs <;> norm_num

lemma tier2_gross_margin_score_b (d : ScoreInput) :
    0 ≤ tier2_gross_margin_score d ∧ tier2_gross_margin_score d ≤ 100 := by
  simp only [tier2_gross_margin_score]
  split_ifs <;> norm_num

lemma tier2_margin_traj_score_b (d : ScoreInput) :
    0 ≤ tier2_margin_traj_score d ∧ tier2_margin_traj_score d ≤ 100 := by
  simp only [tier2_margin_traj_score]
  split_ifs <;> norm_num

lemma tier2_repeat_revenue_proxy_b (d : ScoreInput) :
    0 ≤ tier2_repeat_revenue_proxy d ∧ tier2_repeat_revenue_proxy d ≤ 100 := by
  simp only [tier2_repeat_revenue_proxy]
  split_ifs <;> norm_num

lemma tier2_churn_proxy_b (d : ScoreInput) :
    0 ≤ tier2_churn_proxy d ∧ tier2_churn_proxy d ≤ 100 := by
  simp only [tier2_churn_proxy]
  split_ifs <;> norm_num

lemma tier2_customer_growth_proxy_b (d : ScoreInput) :
    0 ≤ tier2_customer_growth_proxy d ∧ tier2_customer_growth_proxy d ≤ 100 := by
  simp only [tier2_customer_growth_proxy]
  split_ifs <;> norm_num

lemma tier2_concentration_proxy_b (d : ScoreInput) :
    0 ≤ tier2_concentration_proxy d ∧ tier2_concentration_proxy d ≤ 100 := by
  simp only [tier2_concentration_proxy]
  split_ifs <;> norm_num

lemma tier2_retention_score_b (d : ScoreInput) :
    0 ≤ tier2_retention_score d ∧ tier2_retention_score d ≤ 100 := by
  obtain ⟨a1, b1⟩ := tier2_repeat_revenue_proxy_b d
  obtain ⟨a2, b2⟩ := tier2_churn_proxy_b d
  obtain ⟨a3, b3⟩ := tier2_customer_growth_proxy_b d
  obtain ⟨a4, b4⟩ := tier2_concentration_proxy_b d
  simp only [tier2_retention_score]
  split_ifs <;>
    first
    | (norm_num [cap_score, min_def] <;> split_ifs <;> norm_num)
    | (simp only [List.foldl];
       exact ⟨le_trans a4 (le_max_right _ _),
         max_le (max_le (max_le (max_le (by norm_num) b1) b2) b3) b4⟩)

lemma tier2_market_pos_score_b (d : ScoreInput) :
    0 ≤ tier2_market_pos_score d ∧ tier2_market_pos_score d ≤ 100 := by
  simp only [tier2_market_pos_score]
  exact cap_bounds (by split_ifs <;> norm_num)

lemma tier2_rev_growth_score_b (g : ℚ) :
    0 ≤ tier2_rev_growth_score g ∧ tier2_rev_growth_score g ≤ 100 := by
  simp only [tier2_rev_growth_score]
  split_ifs <;> norm_num

lemma tier2_consistency_score_b (d : ScoreInput) :
    0 ≤ tier2_consistency_score d ∧ tier2_consistency_score d ≤ 100 := by
  simp only [tier2_consistency_score]
  split_ifs <;> norm_num

lemma tier2_forward_score_b (d : ScoreInput) :
    0 ≤ tier2_forward_score d ∧ tier2_forward_score d ≤ 100 := by
  simp only [tier2_forward_score]
  exact cap_bounds (by split_ifs <;> norm_num)

lemma tier2_eps_vs_rev_score_b (d : ScoreInput) :
    0 ≤ tier2_eps_vs_rev_score d ∧ tier2_eps_vs_rev_score d ≤ 100 := by
  simp only [tier2_eps_vs_rev_score]
  exact cap_bounds (by split_ifs <;> norm_num)

lemma tier2_tam_score_b (d : ScoreInput) : 0 ≤ tier2_tam_score d ∧ tier2_tam_score d ≤ 100 := by
  simp only [tier2_tam_score]
  split_ifs <;> norm_num

lemma tier2_drivers_score_b (d : ScoreInput) :
    0 ≤ tier2_drivers_score d ∧ tier2_drivers_score d ≤ 100 := by
  simp only [tier2_drivers_score]
  exact cap_bounds (by split_ifs <;> norm_num)

lemma tier2_cyclicality_score_b (d : ScoreInput) :
    0 ≤ tier2_cyclicality_score d ∧ tier2_cyclicality_score d ≤ 100 := by
  simp only [tier2_cyclicality_score]
  rcases d.business_type.getD .software <;> norm_num

lemma tier2_return_score_b (d : ScoreInput) :
    0 ≤ tier2_return_score d ∧ tier2_return_score d ≤ 100 := by
  simp only [tier2_return_score]
  exact cap_bounds (by split_ifs <;> norm_num)

lemma tier2_rel_score_b (d : ScoreInput) : 0 ≤ tier2_rel_score d ∧ tier2_rel_score d ≤ 100 := by
  simp only [tier2_rel_score]
  exact cap_bounds (by split_ifs <;> norm_num)

lemma tier2_comp_pos_score_b (d : ScoreInput) :
    0 ≤ tier2_comp_pos_score d ∧ tier2_comp_pos_score d ≤ 100 := by
  simp only [tier2_comp_pos_score]
  split_ifs <;> norm_num

lemma tier2_moat_score_b (d : ScoreInput) : 0 ≤ tier2_moat_score d ∧ tier2_moat_score d ≤ 100 := by
  simp only [tier2_moat_score]
  exact cap_bounds (by split_ifs <;> norm_num)

lemma tier2_op_leverage_score_b (d : ScoreInput) :
    0 ≤ tier2_op_leverage_score d ∧ tier2_op_leverage_score d ≤ 100 := by
  simp only [tier2_op_leverage_score]
  split_ifs <;> norm_num

lemma tier2_partnership_score_b (d : ScoreInput) :
    0 ≤ tier2_partnership_score d ∧ tier2_partnership_score d ≤ 100 := by
  simp only [tier2_partnership_score]
  exact cap_bounds (by split_ifs <;> norm_num)

lemma tier3_ps_score_b (d : ScoreInput) : 0 ≤ tier3_ps_score d ∧ tier3_ps_score d ≤ 100 := by
  simp only [tier3_ps_score]
  exact cap_bounds (by split_ifs <;> norm_num)

lemma tier3_rel_val_score_b (d : ScoreInput) :
    0 ≤ tier3_rel_val_score d ∧ tier3_rel_val_score d ≤ 100 := by
  simp only [tier3_rel_val_score]
  split_ifs <;> norm_num

lemma tier3_insider_score_b (d : ScoreInput) :
    0 ≤ tier3_insider_score d ∧ tier3_insider_score d ≤ 100 := by
  simp only [tier3_insider_score]
  exact cap_bounds (by split_ifs <;> norm_num)

lemma tier3_scale_score_b (d : ScoreInput) :
    0 ≤ tier3_scale_score d ∧ tier3_scale_score d ≤ 100 := by
  simp only [tier3_scale_score]
  split_ifs <;> norm_num

lemma tier3_profit_score_b (d : ScoreInput) :
    0 ≤ tier3_profit_score d ∧ tier3_profit_score d ≤ 100 := by
  simp only [tier3_profit_score]
  exact floor_bounds (by split_ifs <;> norm_num)

lemma tier3_gross_score_b (d : ScoreInput) :
    0 ≤ tier3_gross_score d ∧ tier3_gross_score d ≤ 100 := by
  simp only [tier3_gross_score]
  split_ifs <;> norm_num

lemma tier3_unit_econ_score_b (d : ScoreInput) :
    0 ≤ tier3_unit_econ_score d ∧ tier3_unit_econ_score d ≤ 100 := by
  simp only [tier3_unit_econ_score]
  split_ifs <;> norm_num

lemma tier3_customer_score_b (d : ScoreInput) :
    0 ≤ tier3_customer_score d ∧ tier3_customer_score d ≤ 100 := by
  simp only [tier3_customer_score]
  split_ifs <;>
    first
    | norm_num
    | (simp only [List.foldl];
       exact ⟨le_max_of_le_left (le_max_of_le_left (le_max_left _ _)),
         max_le (max_le (max_le (by norm_num) (by split_ifs <;> norm_num))
           (by split_ifs <;> norm_num)) (by split_ifs <;> norm_num)⟩)

lemma tier3_rev_score_b (d : ScoreInput) : 0 ≤ tier3_rev_score d ∧ tier3_rev_score d ≤ 100 := by
  simp only [tier3_rev_score]
  split_ifs <;> norm_num

lemma tier3_accel_score_b (d : ScoreInput) :
    0 ≤ tier3_accel_score d ∧ tier3_accel_score d ≤ 100 := by
  simp only [tier3_accel_score]
  exact cap_bounds (by split_ifs <;> norm_num <;> linarith)

lemma tier3_forward_score_b (d : ScoreInput) :
    0 ≤ tier3_forward_score d ∧ tier3_forward_score d ≤ 100 := by
  simp only [tier3_forward_score]
  exact cap_bounds (by split_ifs <;> norm_num)

lemma tier3_tam_score_b (d : ScoreInput) : 0 ≤ tier3_tam_score d ∧ tier3_tam_score d ≤ 100 := by
  simp only [tier3_tam_score]
  split_ifs <;> norm_num

lemma tier3_drivers_score_b (d : ScoreInput) :
    0 ≤ tier3_drivers_score d ∧ tier3_drivers_score d ≤ 100 := by
  simp only [tier3_drivers_score]
  exact cap_bounds (by split_ifs <;> norm_num)

lemma tier3_cyclical_score_b (d : ScoreInput) :
    0 ≤ tier3_cyclical_score d ∧ tier3_cyclical_score d ≤ 100 := by
  simp only [tier3_cyclical_score]
  rcases d.business_type.getD .software <;> norm_num

lemma tier3_return_score_b (d : ScoreInput) :
    0 ≤ tier3_return_score d ∧ tier3_return_score d ≤ 100 := by
  simp only [tier3_return_score]
  split_ifs <;> norm_num

lemma tier3_rel_score_b (d : ScoreInput) : 0 ≤ tier3_rel_score d ∧ tier3_rel_score d ≤ 100 := by
  simp only [tier3_rel_score]
  exact cap_bounds (by split_ifs <;> norm_num)

lemma tier3_sentiment_score_b (d : ScoreInput) :
    0 ≤ tier3_sentiment_score d ∧ tier3_sentiment_score d ≤ 100 := by
  simp only [tier3_sentiment_score]
  exact cap_bounds (by split_ifs <;> norm_num)

lemma tier3_market_pos_score_b (d : ScoreInput) :
    0 ≤ tier3_market_pos_score d ∧ tier3_market_pos_score d ≤ 100 := by
  simp only [tier3_market_pos_score]
  split_ifs <;> norm_num

lemma tier3_op_lev_score_b (d : ScoreInput) :
    0 ≤ tier3_op_lev_score d ∧ tier3_op_lev_score d ≤ 100 := by
  simp only [tier3_op_lev_score]
  split_ifs <;> norm_num

lemma tier3_moat_score_b (d : ScoreInput) : 0 ≤ tier3_moat_score d ∧ tier3_moat_score d ≤ 100 := by
  simp only [tier3_moat_score]
  exact cap_bounds (by split_ifs <;> norm_num)

lemma tier3_partnership_score_b (d : ScoreInput) :
    0 ≤ tier3_partnership_score d ∧ tier3_partnership_score d ≤ 100 := by
  simp only [tier3_partnership_score]
  exact cap_bounds (by split_ifs <;> norm_num)

lemma tier4_ps_score_b (d : ScoreInput) : 0 ≤ tier4_ps_score d ∧ tier4_ps_score d ≤ 100 := by
  simp only [tier4_ps_score]
  exact cap_bounds (by split_ifs <;> norm_num)

lemma tier4_rel_val_score_b (d : ScoreInput) :
    0 ≤ tier4_rel_val_score d ∧ tier4_rel_val_score d ≤ 100 := by
  simp only [tier4_rel_val_score]
  split_ifs <;> norm_num

lemma tier4_insider_score_b (d : ScoreInput) :
    0 ≤ tier4_insider_score d ∧ tier4_insider_score d ≤ 100 := by
  simp only [tier4_insider_score]
  exact cap_bounds (by split_ifs <;> norm_num)

lemma tier4_gross_score_b (d : ScoreInput) :
    0 ≤ tier4_gross_score d ∧ tier4_gross_score d ≤ 100 := by
  simp only [tier4_gross_score]
  split_ifs <;> norm_num

lemma tier4_rev_quality_score_b (d : ScoreInput) :
    0 ≤ tier4_rev_quality_score d ∧ tier4_rev_quality_score d ≤ 100 := by
  simp only [tier4_rev_quality_score]
  exact cap_floor_bounds _

lemma tier4_unit_econ_score_b (d : ScoreInput) :
    0 ≤ tier4_unit_econ_score d ∧ tier4_unit_econ_score d ≤ 100 := by
  simp only [tier4_unit_econ_score]
  split_ifs <;> norm_num

lemma tier4_profit_path_score_b (d : ScoreInput) :
    0 ≤ tier4_profit_path_score d ∧ tier4_profit_path_score d ≤ 100 := by
  simp only [tier4_profit_path_score]
  exact floor_bounds (by split_ifs <;> norm_num)

lemma tier4_rev_score_b (d : ScoreInput) : 0 ≤ tier4_rev_score d ∧ tier4_rev_score d ≤ 100 := by
  simp only [tier4_rev_score]
  split_ifs <;> norm_num

lemma tier4_consist_score_b (d : ScoreInput) :
    0 ≤ tier4_consist_score d ∧ tier4_consist_score d ≤ 100 := by
  simp only [tier4_consist_score]
  exact cap_bounds (by split_ifs <;> norm_num <;> linarith)

lemma tier4_tam_score_b (d : ScoreInput) : 0 ≤ tier4_tam_score d ∧ tier4_tam_score d ≤ 100 := by
  simp only [tier4_tam_score]
  split_ifs <;> norm_num

lemma tier4_penetration_score_b (d : ScoreInput) :
    0 ≤ tier4_penetration_score d ∧ tier4_penetration_score d ≤ 100 := by
  simp only [tier4_penetration_score]
  split_ifs <;> norm_num

lemma tier4_drivers_score_b (d : ScoreInput) :
    0 ≤ tier4_drivers_score d ∧ tier4_drivers_score d ≤ 100 := by
  simp only [tier4_drivers_score]
  exact cap_bounds (by split_ifs <;> norm_num)

lemma tier4_forward_score_b (d : ScoreInput) :
    0 ≤ tier4_forward_score d ∧ tier4_forward_score d ≤ 100 := by
  simp only [tier4_forward_score]
  exact cap_bounds (by split_ifs <;> norm_num)

lemma tier4_catalyst_score_b (d : ScoreInput) :
    0 ≤ tier4_catalyst_score d ∧ tier4_catalyst_score d ≤ 100 := by
  simp only [tier4_catalyst_score]
  exact cap_bounds (by split_ifs <;> norm_num)

lemma tier4_return_score_b (d : ScoreInput) :
    0 ≤ tier4_return_score d ∧ tier4_return_score d ≤ 100 := by
  simp only [tier4_return_score]
  split_ifs <;> norm_num

lemma tier4_rel_score_b (d : ScoreInput) : 0 ≤ tier4_rel_score d ∧ tier4_rel_score d ≤ 100 := by
  simp only [tier4_rel_score]
  split_ifs <;> norm_num

lemma tier4_sentiment_score_b (d : ScoreInput) :
    0 ≤ tier4_sentiment_score d ∧ tier4_sentiment_score d ≤ 100 := by
  simp only [tier4_sentiment_score]
  exact cap_floor_bounds _

lemma tier4_volume_score_b (d : ScoreInput) :
    0 ≤ tier4_volume_score d ∧ tier4_volume_score d ≤ 100 := by
  simp only [tier4_volume_score]
  split_ifs <;> norm_num

lemma tier4_disruption_sub_score_b (d : ScoreInput) :
    0 ≤ tier4_disruption_sub_score d ∧ tier4_disruption_sub_score d ≤ 100 := by
  simp only [tier4_disruption_sub_score]
  rcases d.disruption_type.getD .incremental <;> norm_num

lemma tier4_tech_moat_score_b (d : ScoreInput) :
    0 ≤ tier4_tech_moat_score d ∧ tier4_tech_moat_score d ≤ 100 := by
  simp only [tier4_tech_moat_score]
  exact cap_bounds (by split_ifs <;> norm_num)

lemma tier4_comp_dyn_score_b (d : ScoreInput) :
    0 ≤ tier4_comp_dyn_score d ∧ tier4_comp_dyn_score d ≤ 100 := by
  simp only [tier4_comp_dyn_score]
  rcases d.market_structure.getD .highly_competitive <;> norm_num

lemma tier4_d_catalyst_score_b (d : ScoreInput) :
    0 ≤ tier4_d_catalyst_score d ∧ tier4_d_catalyst_score d ≤ 100 := by
  simp only [tier4_d_catalyst_score]
  exact cap_bounds (by split_ifs <;> norm_num)

lemma tier1_valuation_b (d : ScoreInput) : 0 ≤ tier1_valuation d ∧ tier1_valuation d ≤ 100 := by
  obtain ⟨a1, b1⟩ := tier1_pe_score_b d
  obtain ⟨a2, b2⟩ := tier1_fcf_score_b d
  obtain ⟨a3, b3⟩ := tier1_peg_score_b d
  unfold tier1_valuation
  refine round2_bounds ?_ ?_ <;> simp [dot, tier1_valuation_weights] <;> linarith

lemma tier1_quality_b (d : ScoreInput) : 0 ≤ tier1_quality d ∧ tier1_quality d ≤ 100 := by
  obtain ⟨a1, b1⟩ := tier1_roic_score_b d
  obtain ⟨a2, b2⟩ := tier1_op_margin_score_b d
  obtain ⟨a3, b3⟩ := tier1_margin_trend_score_b d
  obtain ⟨a4, b4⟩ := tier1_moat_score_b d
  obtain ⟨a5, b5⟩ := tier1_mgmt_score_b d
  obtain ⟨a6, b6⟩ := tier1_cash_conv_score_b d
  unfold tier1_quality
  refine round2_bounds ?_ ?_ <;> simp [dot, tier1_quality_weights] <;> linarith

lemma tier1_growth_b (d : ScoreInput) : 0 ≤ tier1_growth d ∧ tier1_growth d ≤ 100 := by
  obtain ⟨a1, b1⟩ := tier1_rev_growth_score_b d
  obtain ⟨a2, b2⟩ := tier1_consistency_score_b d
  obtain ⟨a3, b3⟩ := tier1_eps_score_b d
  obtain ⟨a4, b4⟩ := tier1_future_score_b d
  obtain ⟨a5, b5⟩ := tier1_analyst_score_b d
  unfold tier1_growth
  refine round2_bounds ?_ ?_ <;> simp [dot, tier1_growth_weights] <;> linarith

lemma tier1_momentum_b (d : ScoreInput) : 0 ≤ tier1_momentum d ∧ tier1_momentum d ≤ 100 := by
  obtain ⟨a1, b1⟩ := tier1_return_score_b d
  obtain ⟨a2, b2⟩ := tier1_rel_score_b d
  obtain ⟨a3, b3⟩ := technical_setup_score_b d
  unfold tier1_momentum
  refine round2_bounds ?_ ?_ <;> simp [dot, tier1_momentum_weights] <;> linarith

lemma tier1_financial_health_b (d : ScoreInput) : 0 ≤ tier1_financial_health d ∧ tier1_financial_health d ≤ 100 := by
  obtain ⟨a1, b1⟩ := tier1_net_cash_score_b d
  obtain ⟨a2, b2⟩ := tier1_fh_fcf_score_b d
  obtain ⟨a3, b3⟩ := tier1_cap_alloc_score_b d
  unfold tier1_financial_health
  refine round2_bounds ?_ ?_ <;> simp [dot, tier1_fh_weights] <;> linarith

lemma tier2_valuation_b (d : ScoreInput) : 0 ≤ tier2_valuation d ∧ tier2_valuation d ≤ 100 := by
  obtain ⟨a1, b1⟩ := tier2_pe_ps_score_b d
  obtain ⟨a2, b2⟩ := tier2_peg_score_b d
  obtain ⟨a3, b3⟩ := tier2_rel_val_score_b d
  unfold tier2_valuation
  refine round2_bounds ?_ ?_ <;> simp [dot, tier2_valuation_weights] <;> linarith

lemma tier2_quality_b (d : ScoreInput) : 0 ≤ tier2_quality d ∧ tier2_quality d ≤ 100 := by
  obtain ⟨a1, b1⟩ := tier2_rev_scale_score_b d
  obtain ⟨a2, b2⟩ := tier2_profit_score_b d
  obtain ⟨a3, b3⟩ := tier2_gross_margin_score_b d
  obtain ⟨a4, b4⟩ := tier2_margin_traj_score_b d
  obtain ⟨a5, b5⟩ := tier2_retention_score_b d
  obtain ⟨a6, b6⟩ := tier2_market_pos_score_b d
  unfold tier2_quality
  refine round2_bounds ?_ ?_ <;> simp [dot, tier2_quality_weights] <;> linarith

lemma tier2_growth_b (d : ScoreInput) : 0 ≤ tier2_growth d ∧ tier2_growth d ≤ 100 := by
  obtain ⟨a0, b0⟩ := tier2_rev_growth_score_b (d.revenue_growth_ttm_pct.getD 0)
  obtain ⟨a1, b1⟩ := tier2_consistency_score_b d
  obtain ⟨a2, b2⟩ := tier2_forward_score_b d
  obtain ⟨a3, b3⟩ := tier2_eps_vs_rev_score_b d
  obtain ⟨a4, b4⟩ := tier2_tam_score_b d
  obtain ⟨a5, b5⟩ := tier2_drivers_score_b d
  obtain ⟨a6, b6⟩ := tier2_cyclicality_score_b d
  unfold tier2_growth
  refine round2_bounds ?_ ?_ <;> simp [dot, tier2_growth_weights] <;> linarith

lemma tier2_momentum_b (d : ScoreInput) : 0 ≤ tier2_momentum d ∧ tier2_momentum d ≤ 100 := by
  obtain ⟨a1, b1⟩ := tier2_return_score_b d
  obtain ⟨a2, b2⟩ := tier2_rel_score_b d
  obtain ⟨a3, b3⟩ := technical_setup_score_b d
  unfold tier2_momentum
  refine round2_bounds ?_ ?_ <;> simp [dot, tier2_momentum_weights] <;> linarith

lemma tier2_scale_moat_b (d : ScoreInput) : 0 ≤ tier2_scale_moat d ∧ tier2_scale_moat d ≤ 100 := by
  obtain ⟨a1, b1⟩ := tier2_comp_pos_score_b d
  obtain ⟨a2, b2⟩ := tier2_moat_score_b d
  obtain ⟨a3, b3⟩ := tier2_op_leverage_score_b d
  obtain ⟨a4, b4⟩ := tier2_partnership_score_b d
  unfold tier2_scale_moat
  refine round2_bounds ?_ ?_ <;> simp [dot, tier2_sm_weights] <;> linarith

lemma tier3_valuation_b (d : ScoreInput) : 0 ≤ tier3_valuation d ∧ tier3_valuation d ≤ 100 := by
  obtain ⟨a1, b1⟩ := tier3_ps_score_b d
  obtain ⟨a2, b2⟩ := tier3_rel_val_score_b d
  obtain ⟨a3, b3⟩ := tier3_insider_score_b d
  unfold tier3_valuation
  refine round2_bounds ?_ ?_ <;> simp [dot, tier3_valuation_weights] <;> linarith

lemma tier3_quality_b (d : ScoreInput) : 0 ≤ tier3_quality d ∧ tier3_quality d ≤ 100 := by
  obtain ⟨a1, b1⟩ := tier3_scale_score_b d
  obtain ⟨a2, b2⟩ := tier3_profit_score_b d
  obtain ⟨a3, b3⟩ := tier3_gross_score_b d
  obtain ⟨a4, b4⟩ := tier3_unit_econ_score_b d
  obtain ⟨a5, b5⟩ := tier3_customer_score_b d
  unfold tier3_quality
  refine round2_bounds ?_ ?_ <;> simp [dot, tier3_quality_weights] <;> linarith

lemma tier3_growth_b (d : ScoreInput) : 0 ≤ tier3_growth d ∧ tier3_growth d ≤ 100 := by
  obtain ⟨a1, b1⟩ := tier3_rev_score_b d
  obtain ⟨a2, b2⟩ := tier3_accel_score_b d
  obtain ⟨a3, b3⟩ := tier3_forward_score_b d
  obtain ⟨a4, b4⟩ := tier3_tam_score_b d
  obtain ⟨a5, b5⟩ := tier3_drivers_score_b d
  obtain ⟨a6, b6⟩ := tier3_cyclical_score_b d
  unfold tier3_growth
  refine round2_bounds ?_ ?_ <;> simp [dot, tier3_growth_weights] <;> linarith

lemma tier3_momentum_b (d : ScoreInput) : 0 ≤ tier3_momentum d ∧ tier3_momentum d ≤ 100 := by
  obtain ⟨a1, b1⟩ := tier3_return_score_b d
  obtain ⟨a2, b2⟩ := tier3_rel_score_b d
  obtain ⟨a3, b3⟩ := tier3_sentiment_score_b d
  unfold tier3_momentum
  refine round2_bounds ?_ ?_ <;> simp [dot, tier3_momentum_weights] <;> linarith

lemma tier3_scale_inflection_b (d : ScoreInput) : 0 ≤ tier3_scale_inflection d ∧ tier3_scale_inflection d ≤ 100 := by
  obtain ⟨a1, b1⟩ := tier3_market_pos_score_b d
  obtain ⟨a2, b2⟩ := tier3_op_lev_score_b d
  obtain ⟨a3, b3⟩ := tier3_moat_score_b d
  obtain ⟨a4, b4⟩ := tier3_partnership_score_b d
  unfold tier3_scale_inflection
  refine round2_bounds ?_ ?_ <;> simp [dot, tier3_si_weights] <;> linarith

lemma tier4_valuation_b (d : ScoreInput) : 0 ≤ tier4_valuation d ∧ tier4_valuation d ≤ 100 := by
  obtain ⟨a1, b1⟩ := tier4_ps_score_b d
  obtain ⟨a2, b2⟩ := tier4_rel_val_score_b d
  obtain ⟨a3, b3⟩ := tier4_insider_score_b d
  unfold tier4_valuation
  refine round2_bounds ?_ ?_ <;> simp [dot, tier4_valuation_weights] <;> linarith

lemma tier4_quality_b (d : ScoreInput) : 0 ≤ tier4_quality d ∧ tier4_quality d ≤ 100 := by
  obtain ⟨a1, b1⟩ := tier4_gross_score_b d
  obtain ⟨a2, b2⟩ := tier4_rev_quality_score_b d
  obtain ⟨a3, b3⟩ := tier4_unit_econ_score_b d
  obtain ⟨a4, b4⟩ := tier4_profit_path_score_b d
  unfold tier4_quality
  refine round2_bounds ?_ ?_ <;> simp [dot, tier4_quality_weights] <;> linarith

lemma tier4_growth_b (d : ScoreInput) : 0 ≤ tier4_growth d ∧ tier4_growth d ≤ 100 := by
  obtain ⟨a1, b1⟩ := tier4_rev_score_b d
  obtain ⟨a2, b2⟩ := tier4_consist_score_b d
  obtain ⟨a3, b3⟩ := tier4_tam_score_b d
  obtain ⟨a4, b4⟩ := tier4_penetration_score_b d
  obtain ⟨a5, b5⟩ := tier4_drivers_score_b d
  obtain ⟨a6, b6⟩ := tier4_forward_score_b d
  obtain ⟨a7, b7⟩ := tier4_catalyst_score_b d
  unfold tier4_growth
  refine round2_bounds ?_ ?_ <;> simp [dot, tier4_growth_weights] <;> linarith

lemma tier4_momentum_b (d : ScoreInput) : 0 ≤ tier4_momentum d ∧ tier4_momentum d ≤ 100 := by
  obtain ⟨a1, b1⟩ := tier4_return_score_b d
  obtain ⟨a2, b2⟩ := tier4_rel_score_b d
  obtain ⟨a3, b3⟩ := tier4_sentiment_score_b d
  obtain ⟨a4, b4⟩ := tier4_volume_score_b d
  unfold tier4_momentum
  refine round2_bounds ?_ ?_ <;> simp [dot, tier4_momentum_weights] <;> linarith

lemma tier4_disruption_b (d : ScoreInput) : 0 ≤ tier4_disruption d ∧ tier4_disruption d ≤ 100 := by
  obtain ⟨a1, b1⟩ := tier4_disruption_sub_score_b d
  obtain ⟨a2, b2⟩ := tier4_tech_moat_score_b d
  obtain ⟨a3, b3⟩ := tier4_comp_dyn_score_b d
  obtain ⟨a4, b4⟩ := tier4_d_catalyst_score_b d
  unfold tier4_disruption
  refine round2_bounds ?_ ?_ <;> simp [dot, tier4_disruption_weights] <;> linarith

lemma tier1_composite_b (d : ScoreInput) :
    0 ≤ (calculate_tier1_composite d).1 ∧ (calculate_tier1_composite d).1 ≤ 100 := by
  obtain ⟨a1, b1⟩ := tier1_valuation_b d
  obtain ⟨a2, b2⟩ := tier1_quality_b d
  obtain ⟨a3, b3⟩ := tier1_growth_b d
  obtain ⟨a4, b4⟩ := tier1_momentum_b d
  obtain ⟨a5, b5⟩ := tier1_financial_health_b d
  simp only [calculate_tier1_composite]
  refine round2_bounds ?_ ?_ <;> simp [dot, tier1_composite_weights] <;> linarith

lemma tier2_composite_b (d : ScoreInput) :
    0 ≤ (calculate_tier2_composite d).1 ∧ (calculate_tier2_composite d).1 ≤ 100 := by
  obtain ⟨a1, b1⟩ := tier2_valuation_b d
  obtain ⟨a2, b2⟩ := tier2_quality_b d
  obtain ⟨a3, b3⟩ := tier2_growth_b d
  obtain ⟨a4, b4⟩ := tier2_momentum_b d
  obtain ⟨a5, b5⟩ := tier2_scale_moat_b d
  simp only [calculate_tier2_composite]
  refine round2_bounds ?_ ?_ <;> simp [dot, tier2_composite_weights] <;> linarith

lemma tier3_composite_b (d : ScoreInput) :
    0 ≤ (calculate_tier3_composite d).1 ∧ (calculate_tier3_composite d).1 ≤ 100 := by
  obtain ⟨a1, b1⟩ := tier3_valuation_b d
  obtain ⟨a2, b2⟩ := tier3_quality_b d
  obtain ⟨a3, b3⟩ := tier3_growth_b d
  obtain ⟨a4, b4⟩ := tier3_momentum_b d
  obtain ⟨a5, b5⟩ := tier3_scale_inflection_b d
  simp only [calculate_tier3_composite]
  refine round2_bounds ?_ ?_ <;> simp [dot, tier3_composite_weights] <;> linarith

lemma tier4_composite_b (d : ScoreInput) :
    0 ≤ (calculate_tier4_composite d).1 ∧ (calculate_tier4_composite d).1 ≤ 100 := by
  obtain ⟨a1, b1⟩ := tier4_valuation_b d
  obtain ⟨a2, b2⟩ := tier4_quality_b d
  obtain ⟨a3, b3⟩ := tier4_growth_b d
  obtain ⟨a4, b4⟩ := tier4_momentum_b d
  obtain ⟨a5, b5⟩ := tier4_disruption_b d
  simp only [calculate_tier4_composite]
  refine round2_bounds ?_ ?_ <;> simp [dot, tier4_composite_weights] <;> linarith

/-- C2: for every input record, all twenty tier component scores lie in
[0, 100], every tier composite lies in [0, 100], and the composite returned
by `calculate_score` lies in [0, 100]; in particular the Tier-3 growth
acceleration sub-score (10 extra points per quarter beyond 4) and the Tier-4
revenue-quality bonus/penalty accumulation are clamped into [0, 100] before
entering their weighted averages. -/
theorem component_and_composite_range (t : String) (d : ScoreInput) :
    (0 ≤ tier1_valuation d ∧ tier1_valuation d ≤ 100) ∧
    (0 ≤ tier1_quality d ∧ tier1_quality d ≤ 100) ∧
    (0 ≤ tier1_growth d ∧ tier1_growth d ≤ 100) ∧
    (0 ≤ tier1_momentum d ∧ tier1_momentum d ≤ 100) ∧
    (0 ≤ tier1_financial_health d ∧ tier1_financial_health d ≤ 100) ∧
    (0 ≤ tier2_valuation d ∧ tier2_valuation d ≤ 100) ∧
    (0 ≤ tier2_quality d ∧ tier2_quality d ≤ 100) ∧
    (0 ≤ tier2_growth d ∧ tier2_growth d ≤ 100) ∧
    (0 ≤ tier2_momentum d ∧ tier2_momentum d ≤ 100) ∧
    (0 ≤ tier2_scale_moat d ∧ tier2_scale_moat d ≤ 100) ∧
    (0 ≤ tier3_valuation d ∧ tier3_valuation d ≤ 100) ∧
    (0 ≤ tier3_quality d ∧ tier3_quality d ≤ 100) ∧
    (0 ≤ tier3_growth d ∧ tier3_growth d ≤ 100) ∧
    (0 ≤ tier3_momentum d ∧ tier3_momentum d ≤ 100) ∧
    (0 ≤ tier3_scale_inflection d ∧ tier3_scale_inflection d ≤ 100) ∧
    (0 ≤ tier4_valuation d ∧ tier4_valuation d ≤ 100) ∧
    (0 ≤ tier4_quality d ∧ tier4_quality d ≤ 100) ∧
    (0 ≤ tier4_growth d ∧ tier4_growth d ≤ 100) ∧
    (0 ≤ tier4_momentum d ∧ tier4_momentum d ≤ 100) ∧
    (0 ≤ tier4_disruption d ∧ tier4_disruption d ≤ 100) ∧
    (0 ≤ (calculate_tier1_composite d).1 ∧ (calculate_tier1_composite d).1 ≤ 100) ∧
    (0 ≤ (calculate_tier2_composite d).1 ∧ (calculate_tier2_composite d).1 ≤ 100) ∧
    (0 ≤ (calculate_tier3_composite d).1 ∧ (calculate_tier3_composite d).1 ≤ 100) ∧
    (0 ≤ (calculate_tier4_composite d).1 ∧ (calculate_tier4_composite d).1 ≤ 100) ∧
    (0 ≤ (calculate_score t d).composite_score ∧ (calculate_score t d).composite_score ≤ 100) ∧
    (0 ≤ tier3_accel_score d ∧ tier3_accel_score d ≤ 100) ∧
    (0 ≤ tier4_rev_quality_score d ∧ tier4_rev_quality_score d ≤ 100) := by
  refine ⟨tier1_valuation_b d, tier1_quality_b d, tier1_growth_b d, tier1_momentum_b d,
    tier1_financial_health_b d, tier2_valuation_b d, tier2_quality_b d, tier2_growth_b d,
    tier2_momentum_b d, tier2_scale_moat_b d, tier3_valuation_b d, tier3_quality_b d,
    tier3_growth_b d, tier3_momentum_b d, tier3_scale_inflection_b d, tier4_valuation_b d,
    tier4_quality_b d, tier4_growth_b d, tier4_momentum_b d, tier4_disruption_b d,
    tier1_composite_b d, tier2_composite_b d, tier3_composite_b d, tier4_composite_b d,
    ?_, tier3_accel_score_b d, tier4_rev_quality_score_b d⟩
  simp only [calculate_score]
  split_ifs
  · exact tier1_composite_b d
  · exact tier2_composite_b d
  · exact tier3_composite_b d
  · exact tier4_composite_b d

/-- C9: whenever `is_saas` is false (or absent), the customer-retention
sub-score of `tier2_quality` equals the maximum — not the average — of the
four independently computed proxy scores: repeat revenue, churn, customer
growth and customer concentration. -/
theorem non_saas_retention_is_max (d : ScoreInput) (h : d.is_saas.getD false = false) :
    tier2_retention_score d =
      max (max (max (tier2_repeat_revenue_proxy d) (tier2_churn_proxy d))
        (tier2_customer_growth_proxy d)) (tier2_concentration_proxy d) := by
  obtain ⟨a1, _⟩ := tier2_repeat_revenue_proxy_b d
  simp only [tier2_retention_score, h, Bool.false_eq_true, if_false, List.foldl]
  rw [max_eq_right a1]

/-- Witness for C9: the empty input record (every proxy at its default). -/
theorem non_saas_retention_is_max_witness :
    tier2_retention_score {} =
      max (max (max (tier2_repeat_revenue_proxy {}) (tier2_churn_proxy {}))
        (tier2_customer_growth_proxy {})) (tier2_concentration_proxy {}) :=
  non_saas_retention_is_max {} rfl

/-- C8: for every tier the five top-level composite weights sum to 1 (both
the weights inlined in the composite calculations and the `TIER_WEIGHTS`
table, which agree), and within every one of the twenty component scorers
the sub-weights of its weighted average sum to 1. -/
theorem weight_sums_are_one :
    (((TIER_WEIGHTS 1).map Prod.snd).sum = 1 ∧ ((TIER_WEIGHTS 2).map Prod.snd).sum = 1 ∧
     ((TIER_WEIGHTS 3).map Prod.snd).sum = 1 ∧ ((TIER_WEIGHTS 4).map Prod.snd).sum = 1) ∧
    (tier1_composite_weights = (TIER_WEIGHTS 1).map Prod.snd ∧
     tier2_composite_weights = (TIER_WEIGHTS 2).map Prod.snd ∧
     tier3_composite_weights = (TIER_WEIGHTS 3).map Prod.snd ∧
     tier4_composite_weights = (TIER_WEIGHTS 4).map Prod.snd) ∧
    (tier1_composite_weights.sum = 1 ∧ tier2_composite_weights.sum = 1 ∧
     tier3_composite_weights.sum = 1 ∧ tier4_composite_weights.sum = 1) ∧
    tier1_valuation_weights.sum = 1 ∧ tier1_quality_weights.sum = 1 ∧
    tier1_growth_weights.sum = 1 ∧ tier1_momentum_weights.sum = 1 ∧
    tier1_fh_weights.sum = 1 ∧
    tier2_valuation_weights.sum = 1 ∧ tier2_quality_weights.sum = 1 ∧
    tier2_growth_weights.sum = 1 ∧ tier2_momentum_weights.sum = 1 ∧
    tier2_sm_weights.sum = 1 ∧
    tier3_valuation_weights.sum = 1 ∧ tier3_quality_weights.sum = 1 ∧
    tier3_growth_weights.sum = 1 ∧ tier3_momentum_weights.sum = 1 ∧
    tier3_si_weights.sum = 1 ∧
    tier4_valuation_weights.sum = 1 ∧ tier4_quality_weights.sum = 1 ∧
    tier4_growth_weights.sum = 1 ∧ tier4_momentum_weights.sum = 1 ∧
    tier4_disruption_weights.sum = 1 := by
  norm_num [TIER_WEIGHTS, tier1_composite_weights, tier2_composite_weights,
    tier3_composite_weights, tier4_composite_weights, tier1_valuation_weights,
    tier1_quality_weights, tier1_growth_weights, tier1_momentum_weights, tier1_fh_weights,
    tier2_valuation_weights, tier2_quality_weights, tier2_growth_weights,
    tier2_momentum_weights, tier2_sm_weights, tier3_valuation_weights, tier3_quality_weights,
    tier3_growth_weights, tier3_momentum_weights, tier3_si_weights, tier4_valuation_weights,
    tier4_quality_weights, tier4_growth_weights, tier4_momentum_weights,
    tier4_disruption_weights]

/-- C6 (counterexample): with `historical_pe_avg` absent, the Python default
is the current P/E itself (`data.get('historical_pe_avg', current_pe)`), so
for an input containing only `pe_ratio = 22` the Tier-1 P/E sub-score is 100
(ratio exactly 1), not the neutral 50 the claim states for an absent
`historical_pe_avg`. -/
theorem missing_historical_pe_not_neutral :
    tier1_pe_score { pe_ratio := some 22 } = 100 ∧ (100 : ℚ) ≠ 50 := by
  constructor
  · norm_num [tier1_pe_score, cap_score, floor_score]
  · norm_num

/-- C6 (amended): for every input record (any subset of fields absent),
`calculate_score` returns a complete result with every absent field replaced
by its documented default, and it never raises provided the position-size
volatility adjustment for the assigned tier is nonzero — in particular
whenever `beta` itself is absent (defaulting to 1).  The guarded Tier-1 P/E
division degrades as follows: a present non-positive `historical_pe_avg`
gives the neutral 50, while an absent `historical_pe_avg` defaults to the
current P/E, giving 100 when `pe_ratio` is positive and 50 otherwise. -/
theorem calculate_score_total_with_defaults (t : String) (d : ScoreInput) :
    (∀ m : ℚ, vol_multipliers (calculate_score t d).tier = some m →
      1 + ((calculate_score t d).beta - 1) * m ≠ 0 →
      ((calculate_score t d).position_size_pct).isSome) ∧
    (d.beta = none → ((calculate_score t d).position_size_pct).isSome) ∧
    (d.historical_pe_avg = none →
      tier1_pe_score d = if 0 < d.pe_ratio.getD 0 then 100 else 50) ∧
    (∀ h : ℚ, d.historical_pe_avg = some h → h ≤ 0 → tier1_pe_score d = 50) := by
  refine ⟨?_, ?_, ?_, ?_⟩
  · intro m hm hne
    simp only [calculate_score] at hm hne ⊢
    unfold determine_tier at hm ⊢
    split_ifs at hm ⊢ <;>
      simp only [vol_multipliers, Option.some.injEq] at hm <;>
      subst hm <;>
      simp only [calculate_position_size, base_allocations, vol_multipliers] <;>
      rw [if_neg hne] <;>
      simp
  · intro hb
    simp only [calculate_score, hb, Option.getD_none]
    unfold determine_tier
    split_ifs <;>
      simp only [calculate_position_size, base_allocations, vol_multipliers] <;>
      norm_num
  · intro hh
    simp only [tier1_pe_score, hh, Option.getD_none]
    by_cases hp : 0 < d.pe_ratio.getD 0
    · rw [if_pos hp, if_pos hp, div_self (ne_of_gt hp)]
      norm_num [cap_score, floor_score]
    · rw [if_neg hp, if_neg hp]
  · intro h hd hle
    simp only [tier1_pe_score, hd, Option.getD_some]
    rw [if_neg (not_lt.mpr hle)]

/-- Witness for C6: the empty input record scores completely — its position
size is defined (beta defaults to 1) and its P/E sub-score is the degraded
50 (the defaulted current P/E is 0). -/
theorem calculate_score_total_with_defaults_witness :
    ((calculate_score "X" {}).position_size_pct).isSome ∧ tier1_pe_score {} = 50 := by
  constructor
  · exact (calculate_score_total_with_defaults "X" {}).2.1 rfl
  · have h := (calculate_score_total_with_defaults "X" {}).2.2.1 rfl
    simpa using h
